import Mathlib

/-!
# Rogue Detection System: the dashboard script `static/js/main.js`

A shallow embedding of the browser script and the properties its specification
states about it.

* JavaScript strings are sequences of UTF-16 code units (`JSString`).
* Data sent by the server is JSON (`Json`); the values the script handles are
  the JSON values plus `undefined`, functions and built-in objects (`JSValue`).
  Numbers are the safe integers; other Numbers are outside the embedding.
* Operations that can throw return `Except JSError`: property reads, ToString,
  `new Date`, and with them `showNotification` and the handlers.
* The page is a record (`Page`): the text of the `lastScanTime` element, whether
  the toast container exists, the two optional page hooks with the way a call of
  each ends, and the chronological trace of observable effects (console lines,
  toasts, requests, hook calls).
* A network call is split at the point where the script yields to the event
  loop: the synchronous part (`...Start`) and the part run when the request
  settles (`...Settle`), which receives the `FetchOutcome`.
* Built-ins whose result depends on the engine, the locale or the time zone
  (`String.prototype.toUpperCase`, `Date`) are fields of a `Host`.
* Left out, as no property below is about them: `formatTimestamp`, the
  `DOMContentLoaded` listener, the 10 second timer, and the removal of a toast
  after its delay.
-/

namespace RogueUI

/-! ## Strings -/

/-- A JavaScript string: its UTF-16 code units (numbers below 65536; the
properties below hold of every list of numbers). -/
abbrev JSString := List Nat

/-- UTF-16 encoding of one Unicode scalar value. -/
def encodeChar (c : Char) : List Nat :=
  if c.toNat < 65536 then [c.toNat]
  else [55296 + (c.toNat - 65536) / 1024, 56320 + (c.toNat - 65536) % 1024]

/-- The JavaScript string written as a literal. -/
def utf16 (s : String) : JSString := s.toList.flatMap encodeChar

/-- Decimal digits of a natural number, as code units. -/
def digits (n : Nat) : JSString := (Nat.toDigits 10 n).map Char.toNat

/-- Result of `Array.prototype.join(sep)` on an array of strings. -/
def join (sep : JSString) : List JSString → JSString
  | [] => []
  | [x] => x
  | x :: y :: rest => x ++ sep ++ join sep (y :: rest)

/-! ## Values -/

/-- Errors a JavaScript operation can raise or a promise can reject with. -/
inductive JSError where
  /-- TypeError: property read on `undefined` or `null`, call of something that
  is not a function, or conversion of an object that has no callable `toString`
  or `valueOf` yielding a primitive. -/
  | typeError
  /-- SyntaxError raised by `response.json()` on a body that is not JSON. -/
  | jsonParseError
  /-- Rejection of `fetch` itself: the server could not be reached. -/
  | networkError
  /-- An error thrown by a function of the page that the script calls. -/
  | pageError
  deriving DecidableEq, Repr

deriving instance DecidableEq for Except

/-- A safe integer: an integer of magnitude at most 2^53 - 1.  These are the
Numbers of the embedding; each is printed by JavaScript as its decimal
numeral. -/
structure SafeInt where
  val : Int
  safe : val.natAbs ≤ 9007199254740991
  deriving DecidableEq

/-- JSON values, as `JSON.parse` and the socket deliver them: an object is given
by its own properties, all of which are JSON values again (so none is
callable), and its prototype is `Object.prototype`. -/
inductive Json where
  | null
  | bool (b : Bool)
  | num (n : SafeInt)
  | str (s : JSString)
  | arr (items : List Json)
  | obj (props : List (JSString × Json))

/-- The values the script handles: a JSON value, `undefined`, or a callable
(`function`) or non-callable (`builtin`) object supplied by the engine or the
page and known only by name. -/
inductive JSValue where
  | undefined
  | null
  | bool (b : Bool)
  | num (n : SafeInt)
  | str (s : JSString)
  | arr (items : List Json)
  | obj (props : List (JSString × Json))
  | function (name : JSString)
  | builtin (name : JSString)

/-- A JSON value as a value. -/
def Json.toValue : Json → JSValue
  | .null => .null
  | .bool b => .bool b
  | .num n => .num n
  | .str s => .str s
  | .arr items => .arr items
  | .obj props => .obj props

/-- ToBoolean. -/
def truthy : JSValue → Bool
  | .undefined => false
  | .null => false
  | .bool b => b
  | .num n => n.val != 0
  | .str s => !s.isEmpty
  | .arr _ => true
  | .obj _ => true
  | .function _ => true
  | .builtin _ => true

/-- The `typeof` operator on a value. -/
def typeOf : JSValue → JSString
  | .undefined => utf16 "undefined"
  | .null => utf16 "object"
  | .bool _ => utf16 "boolean"
  | .num _ => utf16 "number"
  | .str _ => utf16 "string"
  | .arr _ => utf16 "object"
  | .obj _ => utf16 "object"
  | .function _ => utf16 "function"
  | .builtin _ => utf16 "object"

/-- Own property of an object, if present. -/
def lookupOwn : List (JSString × Json) → JSString → Option Json
  | [], _ => none
  | (k, v) :: rest, key => if k = key then some v else lookupOwn rest key

/-- Number::toString on a safe integer: the decimal numeral. -/
def numberToString (n : SafeInt) : JSString :=
  if n.val < 0 then 45 :: digits n.val.natAbs else digits n.val.natAbs

/-- ToString on an object with own properties `props`.  The conversion calls
`toString`, then `valueOf`, and takes the first primitive result.  An own
`toString` is a JSON value, hence not callable, and is skipped; `valueOf` is
then either an own property, not callable either, or the inherited one, which
returns the object itself: no primitive is found and a TypeError is thrown.
Without an own `toString` the inherited one yields `[object Object]`. -/
def objectToString (props : List (JSString × Json)) : Except JSError JSString :=
  match lookupOwn props (utf16 "toString") with
  | some _ => .error .typeError
  | none => .ok (utf16 "[object Object]")

mutual
/-- ToString on a JSON value. -/
def Json.toStr : Json → Except JSError JSString
  | .null => .ok (utf16 "null")
  | .bool true => .ok (utf16 "true")
  | .bool false => .ok (utf16 "false")
  | .num n => .ok (numberToString n)
  | .str s => .ok s
  | .arr items => Json.joinItems items
  | .obj props => objectToString props
termination_by structural v => v
/-- ToString on an array, which is `join(",")`: `null` elements render as the
empty string, the others through ToString, left to right. -/
def Json.joinItems : List Json → Except JSError JSString
  | [] => .ok []
  | v :: rest =>
    match (match v with
           | Json.null => Except.ok []
           | w => Json.toStr w : Except JSError JSString) with
    | .error e => .error e
    | .ok s =>
      match rest with
      | [] => .ok s
      | _ :: _ =>
        match Json.joinItems rest with
        | .error e => .error e
        | .ok t => .ok (s ++ 44 :: t)
termination_by structural l => l
end

/-- ToString, as applied by template literals and property keys.  For a
`function` it is the text engines print for a built-in function. -/
def toStr : JSValue → Except JSError JSString
  | .undefined => .ok (utf16 "undefined")
  | .null => .ok (utf16 "null")
  | .bool true => .ok (utf16 "true")
  | .bool false => .ok (utf16 "false")
  | .num n => .ok (numberToString n)
  | .str s => .ok s
  | .arr items => Json.joinItems items
  | .obj props => objectToString props
  | .function name => .ok (utf16 "function " ++ name ++ utf16 "() \x7b [native code] \x7d")
  | .builtin _ => .ok (utf16 "[object Object]")

/-- Names of the function-valued properties every object inherits from
`Object.prototype` (besides `constructor`). -/
def objectPrototypeMethods : List JSString :=
  [utf16 "toString", utf16 "toLocaleString", utf16 "valueOf", utf16 "hasOwnProperty",
   utf16 "isPrototypeOf", utf16 "propertyIsEnumerable", utf16 "__defineGetter__",
   utf16 "__defineSetter__", utf16 "__lookupGetter__", utf16 "__lookupSetter__"]

/-- Property read on `Object.prototype`, the end of every prototype chain:
`constructor` is the function `Object`, `__proto__` on an ordinary object yields
`Object.prototype` itself, the inherited methods are functions, and any other
key is `undefined`. -/
def objectPrototypeGet (k : JSString) : JSValue :=
  if k = utf16 "constructor" then .function (utf16 "Object")
  else if k = utf16 "__proto__" then .builtin (utf16 "Object.prototype")
  else if k ∈ objectPrototypeMethods then .function k
  else .undefined

/-- The read `o[k]` on an ordinary object with own properties `props`: the own
property if there is one, else the property inherited from `Object.prototype`. -/
def objGet (props : List (JSString × Json)) (k : JSString) : JSValue :=
  match lookupOwn props k with
  | some v => v.toValue
  | none => objectPrototypeGet k

/-- The read `v.k`.  It throws on `undefined` and `null`.  On the other
non-object values and on arrays only what is inherited from `Object.prototype`
is modelled; the own properties of the String, Number, Boolean and Array
prototypes (`length`, indices, methods) are not, and none of the keys read by
the script is among them. -/
def getProp (v : JSValue) (k : JSString) : Except JSError JSValue :=
  match v with
  | .undefined => .error .typeError
  | .null => .error .typeError
  | .obj props => .ok (objGet props k)
  | _ => .ok (objectPrototypeGet k)

/-! ## Host built-ins -/

/-- Whether a code unit is an ECMAScript LineTerminator (LF, CR, LS, PS), the
code units that `.` does not match in a regular expression without the `s`
flag. -/
def isLineTerminator (c : Nat) : Bool :=
  c == 10 || c == 13 || c == 8232 || c == 8233

/-- Upper case of one ASCII code unit: `a`..`z` go to `A`..`Z`. -/
def asciiUpper (c : Nat) : Nat :=
  if 97 ≤ c ∧ c ≤ 122 then c - 32 else c

/-- The built-ins of the engine the script relies on.
`toUpperCase s` is `s.toUpperCase()`; `parseDate s` is `Date.parse(s)`, the time
value in milliseconds a string denotes, `none` for NaN; `formatLocaleTime` is
the rendering of a valid time value by `toLocaleTimeString()` in the locale and
time zone of the browser. -/
structure Host where
  toUpperCase : JSString → JSString
  parseDate : JSString → Option Int
  formatLocaleTime : Int → JSString

/-- Facts of ECMAScript about `toUpperCase` that the properties below rely on. -/
structure Host.Lawful (h : Host) : Prop where
  /-- On ASCII input only the letters `a`..`z` change. -/
  upper_ascii : ∀ s : JSString, (∀ c ∈ s, c < 128) → h.toUpperCase s = s.map asciiUpper
  /-- No character upper-cases to nothing. -/
  upper_ne_nil : ∀ s : JSString, s ≠ [] → h.toUpperCase s ≠ []
  /-- Upper-casing creates no line terminator. -/
  upper_lineTerminator : ∀ s : JSString, (∀ c ∈ s, isLineTerminator c = false) →
    ∀ c ∈ h.toUpperCase s, isLineTerminator c = false

/-- The time value of `new Date(v)`, `none` for an invalid date.  A string is
parsed; `undefined` gives NaN; `null`, a boolean and a number are taken as
milliseconds, out of range beyond 8.64e15; an array, an object or a function is
first converted to a primitive, which for these values is their ToString (the
inherited `valueOf` returns the object itself), and that conversion can
throw. -/
def newDate (h : Host) (v : JSValue) : Except JSError (Option Int) :=
  match v with
  | .undefined => .ok none
  | .null => .ok (some 0)
  | .bool b => .ok (some (if b then 1 else 0))
  | .num n => .ok (if n.val.natAbs ≤ 8640000000000000 then some n.val else none)
  | .str s => .ok (h.parseDate s)
  | other =>
    match toStr other with
    | .error e => .error e
    | .ok s => .ok (h.parseDate s)

/-- The result of `toLocaleTimeString()` on a date with the given time value. -/
def renderTime (h : Host) : Option Int → JSString
  | none => utf16 "Invalid Date"
  | some t => h.formatLocaleTime t

/-- The result of `new Date(v).toLocaleTimeString()`. -/
def localeTimeString (h : Host) (v : JSValue) : Except JSError JSString :=
  match newDate h v with
  | .error e => .error e
  | .ok t => .ok (renderTime h t)

/-- Upper case of one code unit of the Latin-1 range, by the Unicode case
mappings: `a`..`z` and `à`..`þ` (without `÷`) move down by 32, `ß` becomes
`SS`, `µ` becomes U+039C, `ÿ` becomes U+0178.  Code units above U+00FF are left
as they are. -/
def latin1UpperUnit (c : Nat) : List Nat :=
  if 97 ≤ c ∧ c ≤ 122 then [c - 32]
  else if c = 181 then [924]
  else if c = 223 then [83, 83]
  else if 224 ≤ c ∧ c ≤ 254 ∧ c ≠ 247 then [c - 32]
  else if c = 255 then [376]
  else [c]

/-- Two zero-padded decimal digits. -/
def twoDigits (n : Nat) : JSString :=
  [48 + n / 10 % 10, 48 + n % 10]

/-- A sample host, used to evaluate the script on concrete inputs: upper-casing
is exact on strings of the Latin-1 range; of the date strings only the one ISO
string used below is parsed, every other string giving NaN; times are rendered
as `HH:MM:SS` in UTC. -/
def sampleHost : Host where
  toUpperCase := fun s => s.flatMap latin1UpperUnit
  parseDate := fun s =>
    if s = utf16 "2024-01-01T00:00:00Z" then some 1704067200000 else none
  formatLocaleTime := fun t =>
    let secs := (t / 1000 % 86400).toNat
    twoDigits (secs / 3600) ++ 58 :: twoDigits (secs / 60 % 60) ++ 58 :: twoDigits (secs % 60)

/-! ## The page -/

/-- An observable effect of the script. -/
inductive Effect where
  /-- A `console.log` line, by its leading text (the logged operand is not
  recorded). -/
  | log (text : JSString)
  /-- A `console.error` line: its leading text and the error logged with it. -/
  | error (text : JSString) (err : JSError)
  /-- A toast appended to the toast container: the strings interpolated as
  title and message, and the `type` of its `bg-type` class. -/
  | toast (title message type : JSString)
  /-- A request issued with `fetch`. -/
  | request (method url : JSString)
  /-- A call of a page-local hook. -/
  | call (hook : JSString)
  deriving DecidableEq, Repr

/-- The state of the page the script acts on.  `lastScanTime` is the text
content of the element with id `lastScanTime`, `none` when the page has no such
element.  `loadRogueDevices` and `updateStats` are the global bindings of these
names in the page, `none` when the page does not declare them.  The hooks are
code of the pages, not of this script: `loadRogueDevicesFails` and
`updateStatsFails` say how a call of each ends, `none` when it returns and
`some e` when it throws `e`; what a hook does to the page is not tracked. -/
structure Page where
  lastScanTime : Option JSString
  hasToastContainer : Bool
  loadRogueDevices : Option JSValue
  updateStats : Option JSValue
  loadRogueDevicesFails : Option JSError
  updateStatsFails : Option JSError
  trace : List Effect

/-- What running a handler leaves behind: the page, and the error that escaped
the handler uncaught, if any. -/
abbrev Outcome := Page × Option JSError

/-- How a `fetch` settles: the promise rejects because the server cannot be
reached, or it resolves with a response of some status whose body is either
JSON (`some` of the parsed value) or not (`none`). -/
inductive FetchOutcome where
  | unreachable
  | response (status : Nat) (body : Option Json)

/-- The toasts of a trace, in order. -/
def toasts : List Effect → List (JSString × JSString × JSString)
  | [] => []
  | .toast t m ty :: rest => (t, m, ty) :: toasts rest
  | _ :: rest => toasts rest

/-- The requests of a trace, in order. -/
def requests : List Effect → List (JSString × JSString)
  | [] => []
  | .request m u :: rest => (m, u) :: requests rest
  | _ :: rest => requests rest

/-- The `console.error` lines of a trace, in order. -/
def errorLines : List Effect → List (JSString × JSError)
  | [] => []
  | .error t e :: rest => (t, e) :: errorLines rest
  | _ :: rest => errorLines rest

/-- The page after one more effect. -/
def emit (p : Page) (e : Effect) : Page :=
  { p with trace := p.trace ++ [e] }

/-- The function `getToastContainer`: the container is created on first use. -/
def getToastContainer (p : Page) : Page :=
  if p.hasToastContainer then p else { p with hasToastContainer := true }

/-- The function `showNotification(title, message, type)`.  The container is
fetched first; then `type` is interpolated into the class of the toast and
title and message into its markup, each through ToString, which can throw; then
the toast is appended.  Every call in the script passes `type`, so its default
`info` is never used.  The Bootstrap library and the body of the document are
taken to be present, so nothing else in the function throws.  The removal of
the toast after its delay is not modelled. -/
def showNotification (p : Page) (title message type : JSValue) : Outcome :=
  let q := getToastContainer p
  match toStr type with
  | .error e => (q, some e)
  | .ok ty =>
    match toStr title with
    | .error e => (q, some e)
    | .ok t =>
      match toStr message with
      | .error e => (q, some e)
      | .ok m => (emit q (.toast t m ty), none)

/-- `typeof name` for a global name of the page: `undefined` when the name is
not declared. -/
def typeofGlobal : Option JSValue → JSString
  | none => utf16 "undefined"
  | some v => typeOf v

/-- The promise `fetch(...).then(response => response.json())`: it rejects when
the server is unreachable or when the body is not JSON, and otherwise resolves
with the parsed body, whatever the status of the response. -/
def responseJson : FetchOutcome → Except JSError JSValue
  | .unreachable => .error .networkError
  | .response _ none => .error .jsonParseError
  | .response _ (some v) => .ok v.toValue

/-! ## `updateLastScanTime` -/

/-- The synchronous part of `updateLastScanTime`: nothing when the element is
missing, else the status request is issued. -/
def updateLastScanTimeStart (p : Page) : Page :=
  match p.lastScanTime with
  | none => p
  | some _ => emit p (.request (utf16 "GET") (utf16 "/api/monitoring/status"))

/-- The `then` callback of `updateLastScanTime` on the parsed body. -/
def updateLastScanTimeThen (h : Host) (p : Page) (data : JSValue) : Outcome :=
  match getProp data (utf16 "latest_scan") with
  | .error e => (p, some e)
  | .ok latest =>
    if truthy latest then
      match getProp latest (utf16 "timestamp") with
      | .error e => (p, some e)
      | .ok ts =>
        if truthy ts then
          match localeTimeString h ts with
          | .error e => (p, some e)
          | .ok text => ({ p with lastScanTime := some text }, none)
        else
          ({ p with lastScanTime := some (utf16 "Never") }, none)
    else
      ({ p with lastScanTime := some (utf16 "Never") }, none)

/-- The `catch` callback of `updateLastScanTime`. -/
def updateLastScanTimeCatch (p : Page) (e : JSError) : Outcome :=
  (emit p (.error (utf16 "Error fetching scan time:") e), none)

/-- The part of `updateLastScanTime` run when its request settles. -/
def updateLastScanTimeSettle (h : Host) (p : Page) (o : FetchOutcome) : Outcome :=
  match responseJson o with
  | .error e => updateLastScanTimeCatch p e
  | .ok data =>
    match updateLastScanTimeThen h p data with
    | (q, none) => (q, none)
    | (q, some e) => updateLastScanTimeCatch q e

/-- The function `updateLastScanTime`, run until its request, settling as `o`,
has been handled. -/
def updateLastScanTime (h : Host) (p : Page) (o : FetchOutcome) : Outcome :=
  match p.lastScanTime with
  | none => (p, none)
  | some _ => updateLastScanTimeSettle h (updateLastScanTimeStart p) o

/-! ## `triggerScan` -/

/-- The synchronous part of `triggerScan`: the toast, then the request. -/
def triggerScanStart (p : Page) : Outcome :=
  match showNotification p (.str (utf16 "Scan Started"))
      (.str (utf16 "Network scan in progress...")) (.str (utf16 "info")) with
  | (q, some e) => (q, some e)
  | (q, none) => (emit q (.request (utf16 "POST") (utf16 "/api/scan")), none)

/-- The `then` callback of `triggerScan` on the parsed body. -/
def triggerScanThen (p : Page) (data : JSValue) : Outcome :=
  match getProp data (utf16 "success") with
  | .error e => (p, some e)
  | .ok success =>
    if truthy success then
      (emit p (.log (utf16 "Scan results:")), none)
    else
      match getProp data (utf16 "error") with
      | .error e => (p, some e)
      | .ok err =>
        showNotification p (.str (utf16 "Scan Failed"))
          (if truthy err then err else .str (utf16 "Unknown error"))
          (.str (utf16 "danger"))

/-- The `catch` callback of `triggerScan`. -/
def triggerScanCatch (p : Page) (e : JSError) : Outcome :=
  showNotification (emit p (.error (utf16 "Scan error:") e))
    (.str (utf16 "Scan Error")) (.str (utf16 "Failed to initiate scan"))
    (.str (utf16 "danger"))

/-- The part of `triggerScan` run when its request settles. -/
def triggerScanSettle (p : Page) (o : FetchOutcome) : Outcome :=
  match responseJson o with
  | .error e => triggerScanCatch p e
  | .ok data =>
    match triggerScanThen p data with
    | (q, none) => (q, none)
    | (q, some e) => triggerScanCatch q e

/-- The function `triggerScan`, run until its request, settling as `o`, has been
handled. -/
def triggerScan (p : Page) (o : FetchOutcome) : Outcome :=
  match triggerScanStart p with
  | (q, some e) => (q, some e)
  | (q, none) => triggerScanSettle q o

/-! ## The socket handlers registered by `initializeSocket` -/

/-- The statement `if (typeof hook === 'function') hook()`: when the name is
bound to a function the call is recorded, and it ends as `fails` says. -/
def callIfFunction (p : Page) (binding : Option JSValue) (name : JSString)
    (fails : Option JSError) : Outcome :=
  if typeofGlobal binding = utf16 "function" then (emit p (.call name), fails) else (p, none)

/-- The handler of `scan_complete`.  The template literal reads and converts
`total_devices`, then `rogues`, before `showNotification` is called; a hook that
throws ends the handler. -/
def onScanComplete (p : Page) (data : JSValue) : Outcome :=
  let p1 := emit p (.log (utf16 "Scan completed:"))
  match getProp data (utf16 "total_devices") with
  | .error e => (p1, some e)
  | .ok d =>
    match toStr d with
    | .error e => (p1, some e)
    | .ok sd =>
      match getProp data (utf16 "rogues") with
      | .error e => (p1, some e)
      | .ok r =>
        match toStr r with
        | .error e => (p1, some e)
        | .ok sr =>
          match showNotification p1 (.str (utf16 "Scan Complete"))
              (.str (utf16 "Found " ++ sd ++ utf16 " devices (" ++ sr ++ utf16 " rogues)"))
              (.str (utf16 "info")) with
          | (p2, some e) => (p2, some e)
          | (p2, none) =>
            let p3 := updateLastScanTimeStart p2
            match callIfFunction p3 p3.loadRogueDevices (utf16 "loadRogueDevices")
                p3.loadRogueDevicesFails with
            | (p4, some e) => (p4, some e)
            | (p4, none) =>
              callIfFunction p4 p4.updateStats (utf16 "updateStats") p4.updateStatsFails

/-- The handler of `device_authorized`. -/
def onDeviceAuthorized (p : Page) (data : JSValue) : Outcome :=
  let p1 := emit p (.log (utf16 "Device authorized:"))
  match getProp data (utf16 "mac_address") with
  | .error e => (p1, some e)
  | .ok m =>
    match toStr m with
    | .error e => (p1, some e)
    | .ok sm =>
      showNotification p1 (.str (utf16 "Device Authorized"))
        (.str (utf16 "Device " ++ sm ++ utf16 " has been authorized"))
        (.str (utf16 "success"))

/-- The handler of `device_isolated`. -/
def onDeviceIsolated (p : Page) (data : JSValue) : Outcome :=
  let p1 := emit p (.log (utf16 "Device isolated:"))
  match getProp data (utf16 "port") with
  | .error e => (p1, some e)
  | .ok port =>
    match toStr port with
    | .error e => (p1, some e)
    | .ok sp =>
      showNotification p1 (.str (utf16 "Device Isolated"))
        (.str (utf16 "Device on port " ++ sp ++ utf16 " has been isolated"))
        (.str (utf16 "warning"))

/-- The handler of `device_restored`. -/
def onDeviceRestored (p : Page) (data : JSValue) : Outcome :=
  let p1 := emit p (.log (utf16 "Device restored:"))
  match getProp data (utf16 "port") with
  | .error e => (p1, some e)
  | .ok port =>
    match toStr port with
    | .error e => (p1, some e)
    | .ok sp =>
      showNotification p1 (.str (utf16 "Device Restored"))
        (.str (utf16 "Device on port " ++ sp ++ utf16 " has been restored"))
        (.str (utf16 "info"))

/-- The handlers `initializeSocket` registers, as the reaction of the page to a
named event with its payload.  An event without a handler does nothing. -/
def initializeSocket (p : Page) (event : JSString) (data : JSValue) : Outcome :=
  if event = utf16 "connect" then (emit p (.log (utf16 "Connected to server")), none)
  else if event = utf16 "scan_complete" then onScanComplete p data
  else if event = utf16 "device_authorized" then onDeviceAuthorized p data
  else if event = utf16 "device_isolated" then onDeviceIsolated p data
  else if event = utf16 "device_restored" then onDeviceRestored p data
  else (p, none)

/-! ## Utility functions -/

/-- All matches of the regular expression `/.{1,2}/g` in a string, left to
right: each match is one or two code units that are not line terminators, two
whenever the next code unit is not a line terminator either.  A line terminator
starts no match, so the search for the next match moves past it. -/
def matchChunks : JSString → List JSString
  | [] => []
  | c :: tail =>
    if isLineTerminator c then matchChunks tail
    else
      match tail with
      | [] => [[c]]
      | d :: rest =>
        if isLineTerminator d then [c] :: matchChunks rest
        else [c, d] :: matchChunks rest

/-- The function `formatMacAddress`.  `match` yields `null` when nothing
matches, and `null.join` throws; a `mac` that is not a string has no
`toUpperCase` method, and the call throws. -/
def formatMacAddress (h : Host) (mac : JSValue) : Except JSError JSString :=
  match mac with
  | .str s =>
    match matchChunks (h.toUpperCase s) with
    | [] => .error .typeError
    | chunks => .ok (join (utf16 ":") chunks)
  | _ => .error .typeError

/-- The object literal `classes` of `getSeverityBadgeClass`. -/
def severityClasses : List (JSString × Json) :=
  [(utf16 "CRITICAL", .str (utf16 "danger")),
   (utf16 "HIGH", .str (utf16 "warning")),
   (utf16 "MEDIUM", .str (utf16 "info")),
   (utf16 "LOW", .str (utf16 "secondary")),
   (utf16 "INFO", .str (utf16 "primary"))]

/-- The function `getSeverityBadgeClass`: `classes[severity] || 'secondary'`.
The key of the read is `severity` converted with ToString, which can throw. -/
def getSeverityBadgeClass (severity : JSValue) : Except JSError JSValue :=
  match toStr severity with
  | .error e => .error e
  | .ok key =>
    let v := objGet severityClasses key
    .ok (if truthy v then v else .str (utf16 "secondary"))

/-- The object literal `classes` of `getStatusBadgeClass`. -/
def statusClasses : List (JSString × Json) :=
  [(utf16 "active", .str (utf16 "success")),
   (utf16 "isolated", .str (utf16 "danger")),
   (utf16 "unknown", .str (utf16 "secondary"))]

/-- The function `getStatusBadgeClass`: `classes[status] || 'secondary'`.
The key of the read is `status` converted with ToString, which can throw. -/
def getStatusBadgeClass (status : JSValue) : Except JSError JSValue :=
  match toStr status with
  | .error e => .error e
  | .ok key =>
    let v := objGet statusClasses key
    .ok (if truthy v then v else .str (utf16 "secondary"))

/-! ## Definitions following the words of the specification -/

/-- A string cut from the left into consecutive chunks of two code units; the
last chunk has one code unit when the length is odd. -/
def chunksOf2 : JSString → List JSString
  | [] => []
  | [c] => [[c]]
  | c :: d :: rest => [c, d] :: chunksOf2 rest

/-- Deletion of the separators that joining chunks of two inserts: every third
code unit is dropped. -/
def dropSeparators : JSString → JSString
  | a :: b :: _ :: rest => a :: b :: dropSeparators rest
  | l => l

/-- A hexadecimal digit `0`..`9`, `A`..`F`, `a`..`f`. -/
def isHexDigit (c : Nat) : Bool :=
  (48 ≤ c && c ≤ 57) || (65 ≤ c && c ≤ 70) || (97 ≤ c && c ≤ 102)

/-- The separators of the written forms of a hardware address: colon, hyphen
and dot. -/
def isSeparator (c : Nat) : Bool :=
  c == 58 || c == 45 || c == 46

/-- What a hardware-address string reduces to: the string without its
separators. -/
def stripSeparators (s : JSString) : JSString :=
  s.filter (fun c => !isSeparator c)

/-- A transport failure in the words of the specification: the network is
unreachable, the response is not 2xx, or the body is not valid JSON. -/
def isTransportFailure : FetchOutcome → Bool
  | .unreachable => true
  | .response status body => !(200 ≤ status && status < 300) || body.isNone

/-- The keys an object literal inherits from `Object.prototype`. -/
def inheritedKeys : List JSString :=
  utf16 "constructor" :: utf16 "__proto__" :: objectPrototypeMethods

/-- The five severity labels. -/
def severityLabels : List JSString :=
  [utf16 "CRITICAL", utf16 "HIGH", utf16 "MEDIUM", utf16 "LOW", utf16 "INFO"]

/-- The three status labels. -/
def statusLabels : List JSString :=
  [utf16 "active", utf16 "isolated", utf16 "unknown"]

/-- A page with the `lastScanTime` element showing `10:15:00`, no toast
container yet, no page hooks and an empty trace. -/
def page0 : Page :=
  { lastScanTime := some (utf16 "10:15:00"), hasToastContainer := false,
    loadRogueDevices := none, updateStats := none, loadRogueDevicesFails := none,
    updateStatsFails := none, trace := [] }

/-- The toast `triggerScan` starts with. -/
def scanStartedToast : Effect :=
  .toast (utf16 "Scan Started") (utf16 "Network scan in progress...") (utf16 "info")

/-- The request `triggerScan` issues. -/
def scanRequest : Effect :=
  .request (utf16 "POST") (utf16 "/api/scan")

/-- The request `updateLastScanTime` issues. -/
def statusRequest : Effect :=
  .request (utf16 "GET") (utf16 "/api/monitoring/status")

/-! ## Auxiliary facts -/

theorem utf16_colon : utf16 ":" = [58] := by decide

theorem toStr_str (s : JSString) : toStr (.str s) = .ok s := rfl

theorem latin1UpperUnit_ascii (c : Nat) (hc : c < 128) : latin1UpperUnit c = [asciiUpper c] := by
  unfold latin1UpperUnit asciiUpper
  split_ifs <;> first | rfl | omega

theorem latin1UpperUnit_ne_nil (c : Nat) : latin1UpperUnit c ≠ [] := by
  unfold latin1UpperUnit
  split_ifs <;> simp

theorem latin1UpperUnit_lineTerminator (c : Nat) (hc : isLineTerminator c = false) :
    ∀ d ∈ latin1UpperUnit c, isLineTerminator d = false := by
  intro d hd
  unfold latin1UpperUnit at hd
  simp only [isLineTerminator, Bool.or_eq_false_iff, beq_eq_false_iff_ne, ne_eq] at hc ⊢
  split_ifs at hd <;> simp at hd <;> (try rcases hd with rfl | rfl) <;>
    refine ⟨⟨⟨?_, ?_⟩, ?_⟩, ?_⟩ <;> omega

/-- The sample host satisfies the facts assumed of `toUpperCase`. -/
theorem sampleHost_lawful : sampleHost.Lawful where
  upper_ascii := by
    intro s hs
    show s.flatMap latin1UpperUnit = s.map asciiUpper
    induction s with
    | nil => rfl
    | cons c t ih =>
      have hc : c < 128 := hs c (List.mem_cons_self _ _)
      have ht : ∀ d ∈ t, d < 128 := fun d hd => hs d (List.mem_cons_of_mem _ hd)
      simp [List.flatMap_cons, latin1UpperUnit_ascii c hc, ih ht]
  upper_ne_nil := by
    intro s hs
    show s.flatMap latin1UpperUnit ≠ []
    cases s with
    | nil => exact absurd rfl hs
    | cons c t =>
      have := latin1UpperUnit_ne_nil c
      intro h
      simp [List.flatMap_cons] at h
      exact this h.1
  upper_lineTerminator := by
    intro s hs d hd
    change d ∈ s.flatMap latin1UpperUnit at hd
    rw [List.mem_flatMap] at hd
    obtain ⟨c, hc, hdc⟩ := hd
    exact latin1UpperUnit_lineTerminator c (hs c hc) d hdc

theorem matchChunks_eq_chunksOf2 (u : JSString) (hu : ∀ c ∈ u, isLineTerminator c = false) :
    matchChunks u = chunksOf2 u := by
  induction u using chunksOf2.induct with
  | case1 => rfl
  | case2 c => simp [matchChunks, chunksOf2, hu c (List.mem_singleton_self c)]
  | case3 c d rest ih =>
    have hc : isLineTerminator c = false := hu c (List.mem_cons_self _ _)
    have hd : isLineTerminator d = false := hu d (by simp)
    have hr : ∀ x ∈ rest, isLineTerminator x = false := fun x hx => hu x (by simp [hx])
    simp [matchChunks, chunksOf2, hc, hd, ih hr]

theorem chunksOf2_ne_nil (u : JSString) (hu : u ≠ []) : chunksOf2 u ≠ [] := by
  match u, hu with
  | [_], _ => simp [chunksOf2]
  | _ :: _ :: _, _ => simp [chunksOf2]

theorem chunksOf2_length (u : JSString) : (chunksOf2 u).length = (u.length + 1) / 2 := by
  induction u using chunksOf2.induct with
  | case1 => rfl
  | case2 c => simp [chunksOf2]
  | case3 c d rest ih => simp only [chunksOf2, List.length_cons, ih]; omega

theorem join_chunksOf2_length (u : JSString) :
    (join [58] (chunksOf2 u)).length = u.length + (u.length + 1) / 2 - 1 := by
  induction u using chunksOf2.induct with
  | case1 => rfl
  | case2 c => simp [chunksOf2, join]
  | case3 c d rest ih =>
    match rest, ih with
    | [], _ => simp [chunksOf2, join]
    | [x], _ => simp [chunksOf2, join]
    | x :: y :: r, ih =>
      simp only [chunksOf2, join, List.length_append, List.length_cons, List.length_nil] at ih ⊢
      omega

theorem dropSeparators_join_chunksOf2 (u : JSString) :
    dropSeparators (join [58] (chunksOf2 u)) = u := by
  induction u using chunksOf2.induct with
  | case1 => rfl
  | case2 c => rfl
  | case3 c d rest ih =>
    match rest, ih with
    | [], _ => rfl
    | [x], _ => rfl
    | x :: y :: r, ih =>
      simp only [chunksOf2] at ih
      simp [chunksOf2, join, dropSeparators, ih]

theorem formatMacAddress_of_clean (h : Host) (s : JSString) (hne : h.toUpperCase s ≠ [])
    (hlt : ∀ c ∈ h.toUpperCase s, isLineTerminator c = false) :
    formatMacAddress h (.str s) = .ok (join [58] (chunksOf2 (h.toUpperCase s))) := by
  have h1 := matchChunks_eq_chunksOf2 _ hlt
  have h2 := chunksOf2_ne_nil _ hne
  unfold formatMacAddress
  simp only [h1, utf16_colon]

theorem hex_lt_128 (c : Nat) (hc : isHexDigit c = true) : c < 128 := by
  simp only [isHexDigit, Bool.or_eq_true, Bool.and_eq_true, decide_eq_true_eq] at hc
  omega

theorem hex_upper_not_lineTerminator (c : Nat) (hc : isHexDigit c = true) :
    isLineTerminator (asciiUpper c) = false := by
  simp only [isHexDigit, Bool.or_eq_true, Bool.and_eq_true, decide_eq_true_eq] at hc
  simp only [isLineTerminator, asciiUpper, Bool.or_eq_false_iff, beq_eq_false_iff_ne, ne_eq]
  split_ifs <;> refine ⟨⟨⟨?_, ?_⟩, ?_⟩, ?_⟩ <;> omega

theorem objGet_severityClasses_other (k : JSString) (hk : k ∉ severityLabels) :
    objGet severityClasses k = objectPrototypeGet k := by
  simp only [severityLabels, List.mem_cons, List.mem_singleton, not_or, List.not_mem_nil,
    or_false] at hk
  obtain ⟨h1, h2, h3, h4, h5⟩ := hk
  simp [objGet, severityClasses, lookupOwn, Ne.symm h1, Ne.symm h2, Ne.symm h3, Ne.symm h4,
    Ne.symm h5]

theorem objGet_statusClasses_other (k : JSString) (hk : k ∉ statusLabels) :
    objGet statusClasses k = objectPrototypeGet k := by
  simp only [statusLabels, List.mem_cons, List.mem_singleton, not_or, List.not_mem_nil,
    or_false] at hk
  obtain ⟨h1, h2, h3⟩ := hk
  simp [objGet, statusClasses, lookupOwn, Ne.symm h1, Ne.symm h2, Ne.symm h3]

theorem objectPrototypeGet_other (k : JSString) (hk : k ∉ inheritedKeys) :
    objectPrototypeGet k = .undefined := by
  simp only [inheritedKeys, List.mem_cons, not_or] at hk
  obtain ⟨h1, h2, h3⟩ := hk
  simp [objectPrototypeGet, h1, h2, h3]

theorem objectPrototypeGet_truthy (k : JSString) (hk : k ∈ inheritedKeys) :
    truthy (objectPrototypeGet k) = true := by
  unfold objectPrototypeGet
  split_ifs with h1 h2 h3
  · rfl
  · rfl
  · rfl
  · simp only [inheritedKeys, List.mem_cons] at hk
    rcases hk with hk | hk | hk
    · exact absurd hk h1
    · exact absurd hk h2
    · exact absurd hk h3

/-! ## Badge classes -/

/-- The five documented severity labels map to their categories. -/
theorem getSeverityBadgeClass_table :
    getSeverityBadgeClass (.str (utf16 "CRITICAL")) = .ok (.str (utf16 "danger")) ∧
    getSeverityBadgeClass (.str (utf16 "HIGH")) = .ok (.str (utf16 "warning")) ∧
    getSeverityBadgeClass (.str (utf16 "MEDIUM")) = .ok (.str (utf16 "info")) ∧
    getSeverityBadgeClass (.str (utf16 "LOW")) = .ok (.str (utf16 "secondary")) ∧
    getSeverityBadgeClass (.str (utf16 "INFO")) = .ok (.str (utf16 "primary")) :=
  ⟨rfl, rfl, rfl, rfl, rfl⟩

/-- A label that is neither one of the five nor a key inherited from
`Object.prototype` maps to `secondary`. -/
theorem getSeverityBadgeClass_default (s : JSString) (hs : s ∉ severityLabels)
    (hi : s ∉ inheritedKeys) :
    getSeverityBadgeClass (.str s) = .ok (.str (utf16 "secondary")) := by
  simp [getSeverityBadgeClass, toStr_str, objGet_severityClasses_other s hs,
    objectPrototypeGet_other s hi, truthy]

/-- A label that is a key inherited from `Object.prototype` maps to the
inherited value, which is not a string. -/
theorem getSeverityBadgeClass_inherited (s : JSString) (hi : s ∈ inheritedKeys) :
    getSeverityBadgeClass (.str s) = .ok (objectPrototypeGet s) ∧
    ∀ t, getSeverityBadgeClass (.str s) ≠ .ok (.str t) := by
  have hs : s ∉ severityLabels := by
    intro hmem
    revert hi
    simp only [severityLabels, List.mem_cons, List.mem_singleton, List.not_mem_nil,
      or_false] at hmem
    rcases hmem with rfl | rfl | rfl | rfl | rfl <;> decide
  have hget : getSeverityBadgeClass (.str s) = .ok (objectPrototypeGet s) := by
    simp [getSeverityBadgeClass, toStr_str, objGet_severityClasses_other s hs,
      objectPrototypeGet_truthy s hi]
  refine ⟨hget, ?_⟩
  intro t
  rw [hget]
  unfold objectPrototypeGet
  split_ifs with h1 h2 h3
  · simp
  · simp
  · simp
  · simp only [inheritedKeys, List.mem_cons] at hi
    rcases hi with hi | hi | hi
    · exact absurd hi h1
    · exact absurd hi h2
    · exact absurd hi h3

/-- C1, evaluated at the label `constructor`: the lookup in the object literal
finds the function `Object` inherited from `Object.prototype`, which is truthy,
so `getSeverityBadgeClass` returns that function and not the string
`secondary`. -/
theorem getSeverityBadgeClass_constructor :
    utf16 "constructor" ∉ severityLabels ∧
    getSeverityBadgeClass (.str (utf16 "constructor")) = .ok (.function (utf16 "Object")) ∧
    getSeverityBadgeClass (.str (utf16 "constructor")) ≠ .ok (.str (utf16 "secondary")) :=
  ⟨by decide, rfl, fun h => by cases h⟩

/-- The three documented status labels map to their categories. -/
theorem getStatusBadgeClass_table :
    getStatusBadgeClass (.str (utf16 "active")) = .ok (.str (utf16 "success")) ∧
    getStatusBadgeClass (.str (utf16 "isolated")) = .ok (.str (utf16 "danger")) ∧
    getStatusBadgeClass (.str (utf16 "unknown")) = .ok (.str (utf16 "secondary")) :=
  ⟨rfl, rfl, rfl⟩

/-- A label that is neither one of the three nor a key inherited from
`Object.prototype` maps to `secondary`. -/
theorem getStatusBadgeClass_default (s : JSString) (hs : s ∉ statusLabels)
    (hi : s ∉ inheritedKeys) :
    getStatusBadgeClass (.str s) = .ok (.str (utf16 "secondary")) := by
  simp [getStatusBadgeClass, toStr_str, objGet_statusClasses_other s hs,
    objectPrototypeGet_other s hi, truthy]

/-- C2, evaluated at the label `toString`: the lookup in the object literal
finds the function inherited from `Object.prototype`, which is truthy, so
`getStatusBadgeClass` returns that function and not the string `secondary`. -/
theorem getStatusBadgeClass_toString :
    utf16 "toString" ∉ statusLabels ∧
    getStatusBadgeClass (.str (utf16 "toString")) = .ok (.function (utf16 "toString")) ∧
    getStatusBadgeClass (.str (utf16 "toString")) ≠ .ok (.str (utf16 "secondary")) :=
  ⟨by decide, rfl, fun h => by cases h⟩

/-! ## `formatMacAddress` -/

/-- C3 as stated fails on the colon-separated form: `aa:bb:cc:dd:ee:ff` reduces
to the 12 hexadecimal characters `aabbccddeeff`, but `formatMacAddress` keeps
the colons and cuts the 17 characters into pairs, giving
`AA::B:B::CC::D:D::EE::F:F` and not `AA:BB:CC:DD:EE:FF`. -/
theorem formatMacAddress_keeps_separators :
    stripSeparators (utf16 "aa:bb:cc:dd:ee:ff") = utf16 "aabbccddeeff" ∧
    (∀ c ∈ stripSeparators (utf16 "aa:bb:cc:dd:ee:ff"), isHexDigit c = true) ∧
    join (utf16 ":") (chunksOf2 ((stripSeparators (utf16 "aa:bb:cc:dd:ee:ff")).map asciiUpper))
      = utf16 "AA:BB:CC:DD:EE:FF" ∧
    formatMacAddress sampleHost (.str (utf16 "aa:bb:cc:dd:ee:ff"))
      = .ok (utf16 "AA::B:B::CC::D:D::EE::F:F") ∧
    formatMacAddress sampleHost (.str (utf16 "aa:bb:cc:dd:ee:ff"))
      ≠ .ok (utf16 "AA:BB:CC:DD:EE:FF") := by
  decide

/-- C3, amended: for every string of exactly 12 hexadecimal characters, without
separators and in any letter case, `formatMacAddress` returns the six two-character
pairs of the upper-cased characters joined by colons, 17 characters in all. -/
theorem formatMacAddress_twelve_hex (h : Host) (hl : h.Lawful) (s : JSString)
    (hlen : s.length = 12) (hhex : ∀ c ∈ s, isHexDigit c = true) :
    formatMacAddress h (.str s) = .ok (join (utf16 ":") (chunksOf2 (s.map asciiUpper))) ∧
    (chunksOf2 (s.map asciiUpper)).length = 6 ∧
    (∀ chunk ∈ chunksOf2 (s.map asciiUpper), chunk.length = 2) ∧
    (join (utf16 ":") (chunksOf2 (s.map asciiUpper))).length = 17 := by
  have hup : h.toUpperCase s = s.map asciiUpper :=
    hl.upper_ascii s (fun c hc => hex_lt_128 c (hhex c hc))
  have hne : h.toUpperCase s ≠ [] := by
    rw [hup]
    intro hnil
    have := congrArg List.length hnil
    simp [hlen] at this
  have hlt : ∀ c ∈ h.toUpperCase s, isLineTerminator c = false := by
    rw [hup]
    intro c hc
    obtain ⟨d, hd, rfl⟩ := List.mem_map.mp hc
    exact hex_upper_not_lineTerminator d (hhex d hd)
  have hfmt := formatMacAddress_of_clean h s hne hlt
  rw [hup] at hfmt
  refine ⟨by rw [utf16_colon]; exact hfmt, ?_, ?_, ?_⟩
  · rw [chunksOf2_length]; simp [hlen]
  · match s, hlen with
    | [a0, a1, a2, a3, a4, a5, a6, a7, a8, a9, a10, a11], _ =>
      intro chunk hchunk
      simp only [List.map, chunksOf2, List.mem_cons, List.mem_singleton, List.not_mem_nil,
        or_false] at hchunk
      rcases hchunk with rfl | rfl | rfl | rfl | rfl | rfl <;> rfl
  · rw [utf16_colon, join_chunksOf2_length]; simp [hlen]

/-- The amended C3 at `aabbccddeeff` on the sample host: the result is
`AA:BB:CC:DD:EE:FF`. -/
theorem formatMacAddress_twelve_hex_witness :
    sampleHost.Lawful ∧ (utf16 "aabbccddeeff").length = 12 ∧
    (∀ c ∈ utf16 "aabbccddeeff", isHexDigit c = true) ∧
    formatMacAddress sampleHost (.str (utf16 "aabbccddeeff")) = .ok (utf16 "AA:BB:CC:DD:EE:FF") :=
  ⟨sampleHost_lawful, by decide, by decide,
    (formatMacAddress_twelve_hex sampleHost sampleHost_lawful (utf16 "aabbccddeeff")
      (by decide) (by decide)).1.trans (by decide)⟩

/-- C10 as stated fails where upper-casing changes the length: the string `ß`
has length 1 and no line terminator, its upper case is `SS`, and
`formatMacAddress` returns `SS`, of length 2 and not 1 + 1 - 1 = 1. -/
theorem formatMacAddress_length_changes :
    utf16 "ß" ≠ [] ∧ (utf16 "ß").length = 1 ∧
    (∀ c ∈ utf16 "ß", isLineTerminator c = false) ∧
    formatMacAddress sampleHost (.str (utf16 "ß")) = .ok (utf16 "SS") ∧
    (utf16 "SS").length = 2 ∧
    (utf16 "SS").length ≠ (utf16 "ß").length + ((utf16 "ß").length + 1) / 2 - 1 := by
  decide

/-- C10, amended: for every non-empty string `s` without line terminator, with
`u` the upper-cased `s` and `m` the length of `u`, `formatMacAddress s` is `u`
cut from the left into consecutive chunks of two characters (the last chunk has
one character when `m` is odd) joined by colons; there are `ceil(m/2)` chunks,
the result has length `m + ceil(m/2) - 1`, and deleting the inserted separators
gives back `u`.  On the empty string the call throws. -/
theorem formatMacAddress_chunks (h : Host) (hl : h.Lawful) (s : JSString)
    (hne : s ≠ []) (hlt : ∀ c ∈ s, isLineTerminator c = false) :
    formatMacAddress h (.str s) = .ok (join (utf16 ":") (chunksOf2 (h.toUpperCase s))) ∧
    (chunksOf2 (h.toUpperCase s)).length = ((h.toUpperCase s).length + 1) / 2 ∧
    (join (utf16 ":") (chunksOf2 (h.toUpperCase s))).length
      = (h.toUpperCase s).length + ((h.toUpperCase s).length + 1) / 2 - 1 ∧
    dropSeparators (join (utf16 ":") (chunksOf2 (h.toUpperCase s))) = h.toUpperCase s ∧
    formatMacAddress h (.str []) = .error .typeError := by
  have hfmt := formatMacAddress_of_clean h s (hl.upper_ne_nil s hne)
    (hl.upper_lineTerminator s hlt)
  have hnil : h.toUpperCase [] = [] := by
    have := hl.upper_ascii [] (by simp)
    simpa using this
  refine ⟨by rw [utf16_colon]; exact hfmt, chunksOf2_length _, ?_, ?_, ?_⟩
  · rw [utf16_colon]; exact join_chunksOf2_length _
  · rw [utf16_colon]; exact dropSeparators_join_chunksOf2 _
  · simp [formatMacAddress, hnil, matchChunks]

/-- The amended C10 at `abcde` on the sample host: the result is `AB:CD:E`. -/
theorem formatMacAddress_chunks_witness :
    sampleHost.Lawful ∧ utf16 "abcde" ≠ [] ∧
    (∀ c ∈ utf16 "abcde", isLineTerminator c = false) ∧
    formatMacAddress sampleHost (.str (utf16 "abcde")) = .ok (utf16 "AB:CD:E") :=
  ⟨sampleHost_lawful, by decide, by decide,
    (formatMacAddress_chunks sampleHost sampleHost_lawful (utf16 "abcde")
      (by decide) (by decide)).1.trans (by decide)⟩

/-! ## Traces -/

theorem toasts_append (xs ys : List Effect) : toasts (xs ++ ys) = toasts xs ++ toasts ys := by
  induction xs with
  | nil => rfl
  | cons x t ih => cases x <;> simp [toasts, ih]

theorem getToastContainer_fields (p : Page) :
    (getToastContainer p).trace = p.trace ∧
    (getToastContainer p).lastScanTime = p.lastScanTime ∧
    (getToastContainer p).loadRogueDevices = p.loadRogueDevices ∧
    (getToastContainer p).updateStats = p.updateStats ∧
    (getToastContainer p).loadRogueDevicesFails = p.loadRogueDevicesFails ∧
    (getToastContainer p).updateStatsFails = p.updateStatsFails := by
  unfold getToastContainer
  split_ifs <;> simp

theorem showNotification_of_ok (p : Page) (title message type : JSValue)
    (st sm sty : JSString) (h1 : toStr title = .ok st) (h2 : toStr message = .ok sm)
    (h3 : toStr type = .ok sty) :
    showNotification p title message type
      = (emit (getToastContainer p) (.toast st sm sty), none) := by
  simp [showNotification, h1, h2, h3]

theorem showNotification_of_message_error (p : Page) (a c : JSString) (message : JSValue)
    (e : JSError) (h2 : toStr message = .error e) :
    showNotification p (.str a) message (.str c) = (getToastContainer p, some e) := by
  simp [showNotification, h2, toStr_str]

theorem triggerScanStart_eq (p : Page) :
    triggerScanStart p = (emit (emit (getToastContainer p) scanStartedToast) scanRequest, none) := by
  simp [triggerScanStart, showNotification_of_ok _ _ _ _ _ _ _ (toStr_str _) (toStr_str _)
    (toStr_str _), scanStartedToast, scanRequest]

theorem triggerScanStart_trace (p : Page) :
    (emit (emit (getToastContainer p) scanStartedToast) scanRequest).trace
      = p.trace ++ [scanStartedToast, scanRequest] := by
  simp [emit, (getToastContainer_fields p).1]

theorem triggerScanCatch_eq (p : Page) (e : JSError) :
    (triggerScanCatch p e).1.trace = p.trace ++
      [.error (utf16 "Scan error:") e,
       .toast (utf16 "Scan Error") (utf16 "Failed to initiate scan") (utf16 "danger")] ∧
    (triggerScanCatch p e).2 = none := by
  simp [triggerScanCatch, showNotification_of_ok _ _ _ _ _ _ _ (toStr_str _) (toStr_str _)
    (toStr_str _), emit, (getToastContainer_fields _).1]

theorem triggerScan_rejected (p : Page) (o : FetchOutcome) (e : JSError)
    (ho : responseJson o = .error e) :
    (triggerScan p o).1.trace = p.trace ++
      [scanStartedToast, scanRequest, .error (utf16 "Scan error:") e,
       .toast (utf16 "Scan Error") (utf16 "Failed to initiate scan") (utf16 "danger")] ∧
    (triggerScan p o).2 = none := by
  simp [triggerScan, triggerScanStart_eq, triggerScanSettle, ho, (triggerScanCatch_eq _ e).1,
    (triggerScanCatch_eq _ e).2, triggerScanStart_trace]

theorem triggerScan_thrown (p : Page) (o : FetchOutcome) (data : JSValue) (e : JSError)
    (ho : responseJson o = .ok data) (hs : getProp data (utf16 "success") = .error e) :
    (triggerScan p o).1.trace = p.trace ++
      [scanStartedToast, scanRequest, .error (utf16 "Scan error:") e,
       .toast (utf16 "Scan Error") (utf16 "Failed to initiate scan") (utf16 "danger")] ∧
    (triggerScan p o).2 = none := by
  simp [triggerScan, triggerScanStart_eq, triggerScanSettle, triggerScanThen, ho, hs,
    (triggerScanCatch_eq _ e).1, (triggerScanCatch_eq _ e).2, triggerScanStart_trace]

theorem triggerScan_truthy (p : Page) (o : FetchOutcome) (data success : JSValue)
    (ho : responseJson o = .ok data) (hs : getProp data (utf16 "success") = .ok success)
    (ht : truthy success = true) :
    (triggerScan p o).1.trace = p.trace ++
      [scanStartedToast, scanRequest, .log (utf16 "Scan results:")] ∧
    (triggerScan p o).2 = none := by
  simp [triggerScan, triggerScanStart_eq, triggerScanSettle, triggerScanThen, ho, hs, ht, emit,
    (getToastContainer_fields _).1]

theorem getProp_ok_of_ok (data : JSValue) (k k2 : JSString) (v : JSValue)
    (h : getProp data k = .ok v) : ∃ w, getProp data k2 = .ok w := by
  cases data <;> simp [getProp] at h ⊢

theorem triggerScan_falsy (p : Page) (o : FetchOutcome) (data success err : JSValue)
    (m : JSString)
    (ho : responseJson o = .ok data) (hs : getProp data (utf16 "success") = .ok success)
    (ht : truthy success = false) (he : getProp data (utf16 "error") = .ok err)
    (hm : toStr (if truthy err then err else .str (utf16 "Unknown error")) = .ok m) :
    (triggerScan p o).1.trace = p.trace ++
      [scanStartedToast, scanRequest, .toast (utf16 "Scan Failed") m (utf16 "danger")] ∧
    (triggerScan p o).2 = none := by
  simp [triggerScan, triggerScanStart_eq, triggerScanSettle, triggerScanThen, ho, hs, ht, he,
    showNotification_of_ok _ _ _ _ _ _ _ (toStr_str _) hm (toStr_str _), emit,
    (getToastContainer_fields _).1]

theorem triggerScan_falsy_throws (p : Page) (o : FetchOutcome) (data success err : JSValue)
    (e : JSError)
    (ho : responseJson o = .ok data) (hs : getProp data (utf16 "success") = .ok success)
    (ht : truthy success = false) (he : getProp data (utf16 "error") = .ok err)
    (hm : toStr (if truthy err then err else .str (utf16 "Unknown error")) = .error e) :
    (triggerScan p o).1.trace = p.trace ++
      [scanStartedToast, scanRequest, .error (utf16 "Scan error:") e,
       .toast (utf16 "Scan Error") (utf16 "Failed to initiate scan") (utf16 "danger")] ∧
    (triggerScan p o).2 = none := by
  simp [triggerScan, triggerScanStart_eq, triggerScanSettle, triggerScanThen, ho, hs, ht, he,
    showNotification_of_message_error _ _ _ _ _ hm, (triggerScanCatch_eq _ e).1,
    (triggerScanCatch_eq _ e).2, emit, (getToastContainer_fields _).1]

/-- Whatever the request does, `triggerScan` leaves no error uncaught, and its
effects are the `Scan Started` toast, then the request, then effects among
which there is no further request. -/
theorem triggerScan_shape (p : Page) (o : FetchOutcome) :
    (triggerScan p o).2 = none ∧
    ∃ rest, (triggerScan p o).1.trace = p.trace ++ scanStartedToast :: scanRequest :: rest ∧
      requests rest = [] := by
  cases hj : responseJson o with
  | error e =>
    obtain ⟨h1, h2⟩ := triggerScan_rejected p o e hj
    exact ⟨h2, _, h1, rfl⟩
  | ok data =>
    cases hs : getProp data (utf16 "success") with
    | error e =>
      obtain ⟨h1, h2⟩ := triggerScan_thrown p o data e hj hs
      exact ⟨h2, _, h1, rfl⟩
    | ok success =>
      cases ht : truthy success with
      | true =>
        obtain ⟨h1, h2⟩ := triggerScan_truthy p o data success hj hs ht
        exact ⟨h2, _, h1, rfl⟩
      | false =>
        obtain ⟨err, he⟩ := getProp_ok_of_ok data _ (utf16 "error") success hs
        cases hm : toStr (if truthy err then err else .str (utf16 "Unknown error")) with
        | error e =>
          obtain ⟨h1, h2⟩ := triggerScan_falsy_throws p o data success err e hj hs ht he hm
          exact ⟨h2, _, h1, rfl⟩
        | ok m =>
          obtain ⟨h1, h2⟩ := triggerScan_falsy p o data success err m hj hs ht he hm
          exact ⟨h2, _, h1, rfl⟩

theorem getProp_obj_own (props : List (JSString × Json)) (k : JSString) (v : Json)
    (hk : lookupOwn props k = some v) : getProp (.obj props) k = .ok v.toValue := by
  simp [getProp, objGet, hk]

theorem getProp_obj_absent (props : List (JSString × Json)) (k : JSString)
    (hk : lookupOwn props k = none) (hi : k ∉ inheritedKeys) :
    getProp (.obj props) k = .ok .undefined := by
  simp [getProp, objGet, hk, objectPrototypeGet_other k hi]

theorem error_not_inherited : utf16 "error" ∉ inheritedKeys := by decide

theorem latest_scan_not_inherited : utf16 "latest_scan" ∉ inheritedKeys := by decide

/-! ## `triggerScan` -/

/-- C4 as stated fails when the error field is the empty string: for the
response `{success: false, error: ""}` the second toast does not carry the
message `e`, the empty string, but the fallback `Unknown error`. -/
theorem triggerScan_empty_error :
    lookupOwn [(utf16 "success", .bool false), (utf16 "error", .str (utf16 ""))]
      (utf16 "success") = some (.bool false) ∧
    lookupOwn [(utf16 "success", .bool false), (utf16 "error", .str (utf16 ""))]
      (utf16 "error") = some (.str (utf16 "")) ∧
    toasts (triggerScan page0 (.response 200 (some (.obj
      [(utf16 "success", .bool false), (utf16 "error", .str (utf16 ""))])))).1.trace
      = [(utf16 "Scan Started", utf16 "Network scan in progress...", utf16 "info"),
         (utf16 "Scan Failed", utf16 "Unknown error", utf16 "danger")] ∧
    utf16 "Unknown error" ≠ utf16 "" :=
  ⟨rfl, rfl, by decide, by decide⟩

/-- C4, amended: the first effect of `triggerScan`, before the request and
whatever the response, is one `info` toast titled `Scan Started`, followed by
the single `POST /api/scan` request.  Then, for every response whose body is a
JSON object: when `success` is `true` the result is only logged and no further
toast is shown; when `success` is `false` and the error field is a non-empty
string `e`, exactly one further toast is shown, of type `danger`, with message
`e`; when `success` is `false` and the error field is absent or is the empty
string, exactly one further `danger` toast is shown with the message
`Unknown error`. -/
theorem triggerScan_response (p : Page) (status : Nat) (props : List (JSString × Json)) :
    (∀ o, ∃ rest, (triggerScan p o).1.trace = p.trace ++ scanStartedToast :: scanRequest :: rest
      ∧ requests rest = []) ∧
    (lookupOwn props (utf16 "success") = some (.bool true) →
      (triggerScan p (.response status (some (.obj props)))).1.trace
        = p.trace ++ [scanStartedToast, scanRequest, .log (utf16 "Scan results:")]) ∧
    (∀ e : JSString, lookupOwn props (utf16 "success") = some (.bool false) →
      lookupOwn props (utf16 "error") = some (.str e) → e ≠ [] →
      (triggerScan p (.response status (some (.obj props)))).1.trace
        = p.trace ++ [scanStartedToast, scanRequest,
            .toast (utf16 "Scan Failed") e (utf16 "danger")]) ∧
    (lookupOwn props (utf16 "success") = some (.bool false) →
      (lookupOwn props (utf16 "error") = none ∨
        lookupOwn props (utf16 "error") = some (.str [])) →
      (triggerScan p (.response status (some (.obj props)))).1.trace
        = p.trace ++ [scanStartedToast, scanRequest,
            .toast (utf16 "Scan Failed") (utf16 "Unknown error") (utf16 "danger")]) := by
  refine ⟨fun o => (triggerScan_shape p o).2, ?_, ?_, ?_⟩
  · intro hs
    exact (triggerScan_truthy p (.response status (some (.obj props))) (.obj props) (.bool true)
      rfl (getProp_obj_own props _ _ hs) rfl).1
  · intro e hs he hne
    have ht : truthy (.str e) = true := by
      cases e with
      | nil => exact absurd rfl hne
      | cons c t => rfl
    exact (triggerScan_falsy p (.response status (some (.obj props))) (.obj props)
      (.bool false) (.str e) e rfl (getProp_obj_own props _ _ hs) rfl
      (getProp_obj_own props _ _ he) (by rw [ht]; rfl)).1
  · intro hs he
    rcases he with he | he
    · exact (triggerScan_falsy p (.response status (some (.obj props))) (.obj props)
        (.bool false) .undefined (utf16 "Unknown error") rfl (getProp_obj_own props _ _ hs) rfl
        (getProp_obj_absent props _ he error_not_inherited) rfl).1
    · exact (triggerScan_falsy p (.response status (some (.obj props))) (.obj props)
        (.bool false) (.str []) (utf16 "Unknown error") rfl (getProp_obj_own props _ _ hs) rfl
        (getProp_obj_own props _ _ he) rfl).1

/-- The amended C4 at the response `{success: false, error: "busy"}`: the second
toast shows `busy`. -/
theorem triggerScan_response_witness :
    (triggerScan page0 (.response 200 (some (.obj
      [(utf16 "success", .bool false), (utf16 "error", .str (utf16 "busy"))])))).1.trace
      = [scanStartedToast, scanRequest,
         .toast (utf16 "Scan Failed") (utf16 "busy") (utf16 "danger")] :=
  (triggerScan_response page0 200
    [(utf16 "success", .bool false), (utf16 "error", .str (utf16 "busy"))]).2.2.1
    (utf16 "busy") rfl rfl (by decide)

/-- C7 as stated fails on a response that is not 2xx but carries JSON: the
status of the response is never read, so for status 500 with the body
`{success: true}` nothing is logged as an error and no `danger` toast is
shown. -/
theorem triggerScan_status_ignored :
    isTransportFailure (.response 500 (some (.obj [(utf16 "success", .bool true)]))) = true ∧
    (triggerScan page0 (.response 500 (some (.obj [(utf16 "success", .bool true)])))).1.trace
      = [scanStartedToast, scanRequest, .log (utf16 "Scan results:")] ∧
    errorLines (triggerScan page0
      (.response 500 (some (.obj [(utf16 "success", .bool true)])))).1.trace = [] ∧
    toasts (triggerScan page0
      (.response 500 (some (.obj [(utf16 "success", .bool true)])))).1.trace
      = [(utf16 "Scan Started", utf16 "Network scan in progress...", utf16 "info")] := by
  decide

/-- C7, amended: when the server cannot be reached or the body of the response
is not valid JSON, no error escapes `triggerScan`, the failure is logged with
`console.error`, and after the initial `Scan Started` toast and the request one
`danger` toast `Scan Error` is shown.  The status of the response plays no
part. -/
theorem triggerScan_transport_failure (p : Page) (o : FetchOutcome)
    (ho : o = .unreachable ∨ ∃ status, o = .response status none) :
    (triggerScan p o).2 = none ∧
    ∃ e, (triggerScan p o).1.trace = p.trace ++
      [scanStartedToast, scanRequest, .error (utf16 "Scan error:") e,
       .toast (utf16 "Scan Error") (utf16 "Failed to initiate scan") (utf16 "danger")] := by
  rcases ho with rfl | ⟨status, rfl⟩
  · exact ⟨(triggerScan_rejected p .unreachable .networkError rfl).2, _,
      (triggerScan_rejected p .unreachable .networkError rfl).1⟩
  · exact ⟨(triggerScan_rejected p (.response status none) .jsonParseError rfl).2, _,
      (triggerScan_rejected p (.response status none) .jsonParseError rfl).1⟩

/-- The amended C7 at a 502 response whose body is not JSON. -/
theorem triggerScan_transport_failure_witness :
    (triggerScan page0 (.response 502 none)).2 = none ∧
    ∃ e, (triggerScan page0 (.response 502 none)).1.trace = page0.trace ++
      [scanStartedToast, scanRequest, .error (utf16 "Scan error:") e,
       .toast (utf16 "Scan Error") (utf16 "Failed to initiate scan") (utf16 "danger")] :=
  triggerScan_transport_failure page0 (.response 502 none) (Or.inr ⟨502, rfl⟩)

/-! ## `updateLastScanTime` -/

theorem updateLastScanTime_rejected (h : Host) (p : Page) (t0 : JSString) (o : FetchOutcome)
    (e : JSError) (hel : p.lastScanTime = some t0) (ho : responseJson o = .error e) :
    (updateLastScanTime h p o).1.lastScanTime = some t0 ∧
    (updateLastScanTime h p o).1.trace
      = p.trace ++ [statusRequest, .error (utf16 "Error fetching scan time:") e] ∧
    (updateLastScanTime h p o).2 = none := by
  simp [updateLastScanTime, hel, updateLastScanTimeSettle, ho, updateLastScanTimeCatch,
    updateLastScanTimeStart, emit, statusRequest]

theorem updateLastScanTime_thrown (h : Host) (p : Page) (t0 : JSString) (o : FetchOutcome)
    (data : JSValue) (e : JSError) (hel : p.lastScanTime = some t0)
    (ho : responseJson o = .ok data) (hl : getProp data (utf16 "latest_scan") = .error e) :
    (updateLastScanTime h p o).1.lastScanTime = some t0 ∧
    (updateLastScanTime h p o).1.trace
      = p.trace ++ [statusRequest, .error (utf16 "Error fetching scan time:") e] ∧
    (updateLastScanTime h p o).2 = none := by
  simp [updateLastScanTime, hel, updateLastScanTimeSettle, ho, updateLastScanTimeThen, hl,
    updateLastScanTimeCatch, updateLastScanTimeStart, emit, statusRequest]

theorem updateLastScanTime_falsy_latest (h : Host) (p : Page) (t0 : JSString) (o : FetchOutcome)
    (data latest : JSValue) (hel : p.lastScanTime = some t0) (ho : responseJson o = .ok data)
    (hl : getProp data (utf16 "latest_scan") = .ok latest) (ht : truthy latest = false) :
    (updateLastScanTime h p o).1.lastScanTime = some (utf16 "Never") ∧
    (updateLastScanTime h p o).1.trace = p.trace ++ [statusRequest] ∧
    (updateLastScanTime h p o).2 = none := by
  simp [updateLastScanTime, hel, updateLastScanTimeSettle, ho, updateLastScanTimeThen, hl, ht,
    updateLastScanTimeStart, emit, statusRequest]

theorem updateLastScanTime_falsy_timestamp (h : Host) (p : Page) (t0 : JSString)
    (o : FetchOutcome) (data latest ts : JSValue) (hel : p.lastScanTime = some t0)
    (ho : responseJson o = .ok data) (hl : getProp data (utf16 "latest_scan") = .ok latest)
    (ht : truthy latest = true) (hts : getProp latest (utf16 "timestamp") = .ok ts)
    (htt : truthy ts = false) :
    (updateLastScanTime h p o).1.lastScanTime = some (utf16 "Never") ∧
    (updateLastScanTime h p o).1.trace = p.trace ++ [statusRequest] ∧
    (updateLastScanTime h p o).2 = none := by
  simp [updateLastScanTime, hel, updateLastScanTimeSettle, ho, updateLastScanTimeThen, hl, ht,
    hts, htt, updateLastScanTimeStart, emit, statusRequest]

theorem updateLastScanTime_timestamp (h : Host) (p : Page) (t0 : JSString) (o : FetchOutcome)
    (data latest ts : JSValue) (text : JSString) (hel : p.lastScanTime = some t0)
    (ho : responseJson o = .ok data) (hl : getProp data (utf16 "latest_scan") = .ok latest)
    (ht : truthy latest = true) (hts : getProp latest (utf16 "timestamp") = .ok ts)
    (htt : truthy ts = true) (hloc : localeTimeString h ts = .ok text) :
    (updateLastScanTime h p o).1.lastScanTime = some text ∧
    (updateLastScanTime h p o).1.trace = p.trace ++ [statusRequest] ∧
    (updateLastScanTime h p o).2 = none := by
  simp [updateLastScanTime, hel, updateLastScanTimeSettle, ho, updateLastScanTimeThen, hl, ht,
    hts, htt, hloc, updateLastScanTimeStart, emit, statusRequest]

/-- A timestamp that cannot be converted for `new Date` makes the callback
throw: the error is caught and logged and the text stays as it was. -/
theorem updateLastScanTime_timestamp_throws (h : Host) (p : Page) (t0 : JSString)
    (o : FetchOutcome) (data latest ts : JSValue) (e : JSError) (hel : p.lastScanTime = some t0)
    (ho : responseJson o = .ok data) (hl : getProp data (utf16 "latest_scan") = .ok latest)
    (ht : truthy latest = true) (hts : getProp latest (utf16 "timestamp") = .ok ts)
    (htt : truthy ts = true) (hloc : localeTimeString h ts = .error e) :
    (updateLastScanTime h p o).1.lastScanTime = some t0 ∧
    (updateLastScanTime h p o).1.trace
      = p.trace ++ [statusRequest, .error (utf16 "Error fetching scan time:") e] ∧
    (updateLastScanTime h p o).2 = none := by
  simp [updateLastScanTime, hel, updateLastScanTimeSettle, ho, updateLastScanTimeThen, hl, ht,
    hts, htt, hloc, updateLastScanTimeCatch, updateLastScanTimeStart, emit, statusRequest]

/-- The toasts of the page are the same before and after `updateLastScanTime`,
however its request settles. -/
theorem updateLastScanTime_no_toast (h : Host) (p : Page) (o : FetchOutcome) :
    toasts (updateLastScanTime h p o).1.trace = toasts p.trace := by
  cases hel : p.lastScanTime with
  | none => simp [updateLastScanTime, hel]
  | some t0 =>
    have key : (updateLastScanTime h p o).1.trace = p.trace ++ [statusRequest] ∨
        ∃ e, (updateLastScanTime h p o).1.trace
          = p.trace ++ [statusRequest, .error (utf16 "Error fetching scan time:") e] := by
      cases ho : responseJson o with
      | error e => exact Or.inr ⟨e, (updateLastScanTime_rejected h p t0 o e hel ho).2.1⟩
      | ok data =>
        cases hl : getProp data (utf16 "latest_scan") with
        | error e => exact Or.inr ⟨e, (updateLastScanTime_thrown h p t0 o data e hel ho hl).2.1⟩
        | ok latest =>
          cases ht : truthy latest with
          | false =>
            exact Or.inl (updateLastScanTime_falsy_latest h p t0 o data latest hel ho hl ht).2.1
          | true =>
            cases hts : getProp latest (utf16 "timestamp") with
            | error e =>
              cases latest <;> simp [getProp, truthy] at ht hts
            | ok ts =>
              cases htt : truthy ts with
              | false =>
                exact Or.inl (updateLastScanTime_falsy_timestamp h p t0 o data latest ts hel ho
                  hl ht hts htt).2.1
              | true =>
                cases hloc : localeTimeString h ts with
                | error e =>
                  exact Or.inr ⟨e, (updateLastScanTime_timestamp_throws h p t0 o data latest ts e
                    hel ho hl ht hts htt hloc).2.1⟩
                | ok text =>
                  exact Or.inl (updateLastScanTime_timestamp h p t0 o data latest ts text hel ho
                    hl ht hts htt hloc).2.1
    rcases key with hk | ⟨e, hk⟩ <;> rw [hk, toasts_append] <;> simp [statusRequest, toasts]

/-- A falsy timestamp, such as the empty string, is rendered as `Never`. -/
theorem updateLastScanTime_empty_timestamp :
    (updateLastScanTime sampleHost page0 (.response 200 (some
      (.obj [(utf16 "latest_scan", .obj [(utf16 "timestamp", .str (utf16 ""))])])))).1.lastScanTime
      = some (utf16 "Never") := by
  decide

/-- C5: when the `lastScanTime` element exists, for every well-formed response
of the status poll (a JSON object, whose `latest_scan`, when present, is an
object whose `timestamp` is a non-empty string): if the response has no
`latest_scan`, the text of the element becomes `Never`; if it has
`latest_scan.timestamp = t`, the text becomes the locale time string of the
instant `t`, that is `toLocaleTimeString` of `new Date(t)`.  In both cases the
only new effect is the status request and no error is raised, and no toast is
shown however the poll ends. -/
theorem updateLastScanTime_response (h : Host) (p : Page) (t0 : JSString) (status : Nat)
    (props : List (JSString × Json)) (hel : p.lastScanTime = some t0) :
    (lookupOwn props (utf16 "latest_scan") = none →
      (updateLastScanTime h p (.response status (some (.obj props)))).1.lastScanTime
        = some (utf16 "Never") ∧
      (updateLastScanTime h p (.response status (some (.obj props)))).1.trace
        = p.trace ++ [statusRequest] ∧
      (updateLastScanTime h p (.response status (some (.obj props)))).2 = none) ∧
    (∀ (latest : List (JSString × Json)) (t : JSString),
      lookupOwn props (utf16 "latest_scan") = some (.obj latest) →
      lookupOwn latest (utf16 "timestamp") = some (.str t) → t ≠ [] →
      localeTimeString h (.str t) = .ok (renderTime h (h.parseDate t)) ∧
      (updateLastScanTime h p (.response status (some (.obj props)))).1.lastScanTime
        = some (renderTime h (h.parseDate t)) ∧
      (updateLastScanTime h p (.response status (some (.obj props)))).1.trace
        = p.trace ++ [statusRequest] ∧
      (updateLastScanTime h p (.response status (some (.obj props)))).2 = none) ∧
    (∀ o, toasts (updateLastScanTime h p o).1.trace = toasts p.trace) := by
  refine ⟨?_, ?_, fun o => updateLastScanTime_no_toast h p o⟩
  · intro hnone
    exact updateLastScanTime_falsy_latest h p t0 (.response status (some (.obj props)))
      (.obj props) .undefined hel rfl
      (getProp_obj_absent props _ hnone latest_scan_not_inherited) rfl
  · intro latest t hlatest hts hne
    have htt : truthy (.str t) = true := by
      cases t with
      | nil => exact absurd rfl hne
      | cons c r => rfl
    refine ⟨rfl, ?_⟩
    exact updateLastScanTime_timestamp h p t0 (.response status (some (.obj props)))
      (.obj props) (.obj latest) (.str t) _ hel rfl (getProp_obj_own props _ _ hlatest) rfl
      (getProp_obj_own latest _ _ hts) htt rfl

/-- C5 on the sample host: the response
`{latest_scan: {timestamp: "2024-01-01T00:00:00Z"}}` renders the time of that
instant, and the response `{}` renders `Never`. -/
theorem updateLastScanTime_response_witness :
    (updateLastScanTime sampleHost page0 (.response 200 (some (.obj [(utf16 "latest_scan",
      .obj [(utf16 "timestamp", .str (utf16 "2024-01-01T00:00:00Z"))])])))).1.lastScanTime
      = some (utf16 "00:00:00") ∧
    (updateLastScanTime sampleHost page0 (.response 200 (some (.obj [])))).1.lastScanTime
      = some (utf16 "Never") :=
  ⟨((updateLastScanTime_response sampleHost page0 (utf16 "10:15:00") 200
      [(utf16 "latest_scan",
        .obj [(utf16 "timestamp", .str (utf16 "2024-01-01T00:00:00Z"))])] rfl).2.1
      [(utf16 "timestamp", .str (utf16 "2024-01-01T00:00:00Z"))]
      (utf16 "2024-01-01T00:00:00Z") rfl rfl (by decide)).2.1.trans (by decide),
   ((updateLastScanTime_response sampleHost page0 (utf16 "10:15:00") 200 [] rfl).1 rfl).1⟩

/-- C6 as stated fails on a response that is not 2xx but carries JSON: the
status of the response is never read, so for status 500 with the body
`{error: "Internal Server Error"}` the text of the element changes from
`10:15:00` to `Never` and nothing is logged. -/
theorem updateLastScanTime_status_ignored :
    isTransportFailure (.response 500 (some (.obj
      [(utf16 "error", .str (utf16 "Internal Server Error"))]))) = true ∧
    page0.lastScanTime = some (utf16 "10:15:00") ∧
    (updateLastScanTime sampleHost page0 (.response 500 (some (.obj
      [(utf16 "error", .str (utf16 "Internal Server Error"))])))).1.lastScanTime
      = some (utf16 "Never") ∧
    (updateLastScanTime sampleHost page0 (.response 500 (some (.obj
      [(utf16 "error", .str (utf16 "Internal Server Error"))])))).1.lastScanTime
      ≠ page0.lastScanTime ∧
    errorLines (updateLastScanTime sampleHost page0 (.response 500 (some (.obj
      [(utf16 "error", .str (utf16 "Internal Server Error"))])))).1.trace = [] := by
  decide

/-- C6, amended: for every prior text of the `lastScanTime` element, when the
server cannot be reached or the body of the response is not valid JSON, the text
of the element after the poll equals its text before the poll, the failure is
logged with `console.error`, and no toast is shown.  The status of the response
plays no part. -/
theorem updateLastScanTime_transport_failure (h : Host) (p : Page) (t0 : JSString)
    (o : FetchOutcome) (hel : p.lastScanTime = some t0)
    (ho : o = .unreachable ∨ ∃ status, o = .response status none) :
    (updateLastScanTime h p o).1.lastScanTime = some t0 ∧
    (∃ e, (updateLastScanTime h p o).1.trace
      = p.trace ++ [statusRequest, .error (utf16 "Error fetching scan time:") e]) ∧
    toasts (updateLastScanTime h p o).1.trace = toasts p.trace ∧
    (updateLastScanTime h p o).2 = none := by
  have key : ∃ e, responseJson o = .error e := by
    rcases ho with rfl | ⟨status, rfl⟩
    · exact ⟨.networkError, rfl⟩
    · exact ⟨.jsonParseError, rfl⟩
  obtain ⟨e, he⟩ := key
  obtain ⟨h1, h2, h3⟩ := updateLastScanTime_rejected h p t0 o e hel he
  refine ⟨h1, ⟨e, h2⟩, ?_, h3⟩
  rw [h2, toasts_append]
  simp [statusRequest, toasts]

/-- The amended C6 when the server is unreachable: the text stays `10:15:00`. -/
theorem updateLastScanTime_transport_failure_witness :
    (updateLastScanTime sampleHost page0 .unreachable).1.lastScanTime
      = some (utf16 "10:15:00") :=
  (updateLastScanTime_transport_failure sampleHost page0 (utf16 "10:15:00") .unreachable rfl
    (Or.inl rfl)).1

/-! ## Socket handlers -/

theorem typeofGlobal_function_iff (b : Option JSValue) :
    typeofGlobal b = utf16 "function" ↔ ∃ name, b = some (.function name) := by
  constructor
  · intro hb
    match b, hb with
    | some (.function name), _ => exact ⟨name, rfl⟩
    | none, hb => exact absurd hb (by decide)
    | some .undefined, hb => exact absurd hb (by decide)
    | some .null, hb => exact absurd hb (by decide)
    | some (.bool _), hb => exact absurd hb (show utf16 "boolean" ≠ utf16 "function" by decide)
    | some (.num _), hb => exact absurd hb (show utf16 "number" ≠ utf16 "function" by decide)
    | some (.str _), hb => exact absurd hb (show utf16 "string" ≠ utf16 "function" by decide)
    | some (.arr _), hb => exact absurd hb (show utf16 "object" ≠ utf16 "function" by decide)
    | some (.obj _), hb => exact absurd hb (show utf16 "object" ≠ utf16 "function" by decide)
    | some (.builtin _), hb => exact absurd hb (show utf16 "object" ≠ utf16 "function" by decide)
  · rintro ⟨name, rfl⟩
    rfl

theorem callIfFunction_returns (p : Page) (b : Option JSValue) (name : JSString) :
    callIfFunction p b name none
      = (if typeofGlobal b = utf16 "function" then emit p (.call name) else p, none) := by
  unfold callIfFunction
  split_ifs <;> rfl

theorem ite_emit_fields (c : Prop) [Decidable c] (p : Page) (e : Effect) :
    (if c then emit p e else p).trace = p.trace ++ (if c then [e] else []) ∧
    (if c then emit p e else p).lastScanTime = p.lastScanTime ∧
    (if c then emit p e else p).loadRogueDevices = p.loadRogueDevices ∧
    (if c then emit p e else p).updateStats = p.updateStats ∧
    (if c then emit p e else p).loadRogueDevicesFails = p.loadRogueDevicesFails ∧
    (if c then emit p e else p).updateStatsFails = p.updateStatsFails := by
  split_ifs <;> simp [emit]

theorem emit_fields (p : Page) (e : Effect) :
    (emit p e).trace = p.trace ++ [e] ∧
    (emit p e).lastScanTime = p.lastScanTime ∧
    (emit p e).loadRogueDevices = p.loadRogueDevices ∧
    (emit p e).updateStats = p.updateStats ∧
    (emit p e).loadRogueDevicesFails = p.loadRogueDevicesFails ∧
    (emit p e).updateStatsFails = p.updateStatsFails :=
  ⟨rfl, rfl, rfl, rfl, rfl, rfl⟩

theorem updateLastScanTimeStart_fields (p : Page) :
    (updateLastScanTimeStart p).trace
      = p.trace ++ (if p.lastScanTime.isSome then [statusRequest] else []) ∧
    (updateLastScanTimeStart p).lastScanTime = p.lastScanTime ∧
    (updateLastScanTimeStart p).loadRogueDevices = p.loadRogueDevices ∧
    (updateLastScanTimeStart p).updateStats = p.updateStats ∧
    (updateLastScanTimeStart p).loadRogueDevicesFails = p.loadRogueDevicesFails ∧
    (updateLastScanTimeStart p).updateStatsFails = p.updateStatsFails := by
  unfold updateLastScanTimeStart
  cases h : p.lastScanTime <;> simp [emit, statusRequest, h]

/-- C8: for every `scan_complete` payload with `total_devices = d` and
`rogues = r`, where `d` and `r` are values that ToString converts (every
number, string, boolean and `null` is one; an object with an own `toString`
property is not), on a page whose hooks return when called, the handler logs
the event, shows exactly one toast, of type `info`, titled `Scan Complete`,
with the message `Found d devices (r rogues)`, then starts one last-scan-time
refresh (the status request, issued when the `lastScanTime` element exists),
then calls `loadRogueDevices` if and only if that name is bound to a function
in the page, and then `updateStats` if and only if that name is bound to a
function.  No error escapes and the text of the element is not changed by the
handler itself. -/
theorem scan_complete_handler (p : Page) (data d r : JSValue) (sd sr : JSString)
    (hd : getProp data (utf16 "total_devices") = .ok d) (hsd : toStr d = .ok sd)
    (hr : getProp data (utf16 "rogues") = .ok r) (hsr : toStr r = .ok sr)
    (hload : p.loadRogueDevicesFails = none) (hstats : p.updateStatsFails = none) :
    (initializeSocket p (utf16 "scan_complete") data).1.trace
      = p.trace ++
        [.log (utf16 "Scan completed:"),
         .toast (utf16 "Scan Complete")
           (utf16 "Found " ++ sd ++ utf16 " devices (" ++ sr ++ utf16 " rogues)")
           (utf16 "info")] ++
        (if p.lastScanTime.isSome then [statusRequest] else []) ++
        (if typeofGlobal p.loadRogueDevices = utf16 "function"
          then [.call (utf16 "loadRogueDevices")] else []) ++
        (if typeofGlobal p.updateStats = utf16 "function"
          then [.call (utf16 "updateStats")] else []) ∧
    toasts (initializeSocket p (utf16 "scan_complete") data).1.trace
      = toasts p.trace ++
        [(utf16 "Scan Complete",
          utf16 "Found " ++ sd ++ utf16 " devices (" ++ sr ++ utf16 " rogues)",
          utf16 "info")] ∧
    (typeofGlobal p.loadRogueDevices = utf16 "function"
      ↔ ∃ name, p.loadRogueDevices = some (.function name)) ∧
    (typeofGlobal p.updateStats = utf16 "function"
      ↔ ∃ name, p.updateStats = some (.function name)) ∧
    (initializeSocket p (utf16 "scan_complete") data).1.lastScanTime = p.lastScanTime ∧
    (initializeSocket p (utf16 "scan_complete") data).2 = none := by
  have hev : initializeSocket p (utf16 "scan_complete") data = onScanComplete p data := by
    unfold initializeSocket
    rw [if_neg (by decide), if_pos rfl]
  have hfails1 : (updateLastScanTimeStart (emit (getToastContainer
      (emit p (.log (utf16 "Scan completed:"))))
      (.toast (utf16 "Scan Complete")
        (utf16 "Found " ++ sd ++ utf16 " devices (" ++ sr ++ utf16 " rogues)")
        (utf16 "info")))).loadRogueDevicesFails = none := by
    rw [(updateLastScanTimeStart_fields _).2.2.2.2.1, (emit_fields _ _).2.2.2.2.1,
      (getToastContainer_fields _).2.2.2.2.1, (emit_fields _ _).2.2.2.2.1, hload]
  have hfails2 : ∀ (c : Prop) [Decidable c] (e : Effect),
      (if c then emit (updateLastScanTimeStart (emit (getToastContainer
        (emit p (.log (utf16 "Scan completed:"))))
        (.toast (utf16 "Scan Complete")
          (utf16 "Found " ++ sd ++ utf16 " devices (" ++ sr ++ utf16 " rogues)")
          (utf16 "info")))) e
       else updateLastScanTimeStart (emit (getToastContainer
        (emit p (.log (utf16 "Scan completed:"))))
        (.toast (utf16 "Scan Complete")
          (utf16 "Found " ++ sd ++ utf16 " devices (" ++ sr ++ utf16 " rogues)")
          (utf16 "info")))).updateStatsFails = none := by
    intro c _ e
    rw [(ite_emit_fields _ _ _).2.2.2.2.2, (updateLastScanTimeStart_fields _).2.2.2.2.2,
      (emit_fields _ _).2.2.2.2.2, (getToastContainer_fields _).2.2.2.2.2,
      (emit_fields _ _).2.2.2.2.2, hstats]
  have hrun : onScanComplete p data
      = (if typeofGlobal p.updateStats = utf16 "function" then
          emit (if typeofGlobal p.loadRogueDevices = utf16 "function" then
              emit (updateLastScanTimeStart (emit (getToastContainer
                (emit p (.log (utf16 "Scan completed:"))))
                (.toast (utf16 "Scan Complete")
                  (utf16 "Found " ++ sd ++ utf16 " devices (" ++ sr ++ utf16 " rogues)")
                  (utf16 "info")))) (.call (utf16 "loadRogueDevices"))
            else updateLastScanTimeStart (emit (getToastContainer
                (emit p (.log (utf16 "Scan completed:"))))
                (.toast (utf16 "Scan Complete")
                  (utf16 "Found " ++ sd ++ utf16 " devices (" ++ sr ++ utf16 " rogues)")
                  (utf16 "info")))) (.call (utf16 "updateStats"))
         else
          (if typeofGlobal p.loadRogueDevices = utf16 "function" then
              emit (updateLastScanTimeStart (emit (getToastContainer
                (emit p (.log (utf16 "Scan completed:"))))
                (.toast (utf16 "Scan Complete")
                  (utf16 "Found " ++ sd ++ utf16 " devices (" ++ sr ++ utf16 " rogues)")
                  (utf16 "info")))) (.call (utf16 "loadRogueDevices"))
            else updateLastScanTimeStart (emit (getToastContainer
                (emit p (.log (utf16 "Scan completed:"))))
                (.toast (utf16 "Scan Complete")
                  (utf16 "Found " ++ sd ++ utf16 " devices (" ++ sr ++ utf16 " rogues)")
                  (utf16 "info")))), none) := by
    simp only [onScanComplete, hd, hsd, hr, hsr,
      showNotification_of_ok _ _ _ _ _ _ _ (toStr_str _) (toStr_str _) (toStr_str _)]
    rw [hfails1, callIfFunction_returns]
    simp only
    rw [hfails2, callIfFunction_returns]
    simp only [(ite_emit_fields _ _ _).2.2.2.1, (ite_emit_fields _ _ _).2.2.1,
      (updateLastScanTimeStart_fields _).2.2.2.1, (updateLastScanTimeStart_fields _).2.2.1,
      (emit_fields _ _).2.2.2.1, (emit_fields _ _).2.2.1,
      (getToastContainer_fields _).2.2.2.1, (getToastContainer_fields _).2.2.1]
  have htrace : (onScanComplete p data).1.trace
      = p.trace ++
        [.log (utf16 "Scan completed:"),
         .toast (utf16 "Scan Complete")
           (utf16 "Found " ++ sd ++ utf16 " devices (" ++ sr ++ utf16 " rogues)")
           (utf16 "info")] ++
        (if p.lastScanTime.isSome then [statusRequest] else []) ++
        (if typeofGlobal p.loadRogueDevices = utf16 "function"
          then [.call (utf16 "loadRogueDevices")] else []) ++
        (if typeofGlobal p.updateStats = utf16 "function"
          then [.call (utf16 "updateStats")] else []) := by
    rw [hrun]
    simp only [(ite_emit_fields _ _ _).1, (updateLastScanTimeStart_fields _).1,
      (updateLastScanTimeStart_fields _).2.1, (emit_fields _ _).1, (emit_fields _ _).2.1,
      (getToastContainer_fields _).1, (getToastContainer_fields _).2.1, List.append_assoc,
      List.cons_append, List.nil_append]
  refine ⟨by rw [hev]; exact htrace, ?_, typeofGlobal_function_iff _,
    typeofGlobal_function_iff _, ?_, ?_⟩
  · rw [hev, htrace]
    simp only [toasts_append]
    have h1 : toasts (if p.lastScanTime.isSome then [statusRequest] else []) = [] := by
      split_ifs <;> rfl
    have h2 : ∀ (c : Prop) [Decidable c] (n : JSString),
        toasts (if c then [.call n] else []) = [] := by
      intro c _ n
      split_ifs <;> rfl
    simp [h1, h2, toasts]
  · rw [hev, hrun]
    simp only [(ite_emit_fields _ _ _).2.1, (updateLastScanTimeStart_fields _).2.1,
      (emit_fields _ _).2.1, (getToastContainer_fields _).2.1]
  · rw [hev, hrun]

/-- C8 at the payload `{total_devices: 10, rogues: 2}` on a page that defines
`loadRogueDevices` as a function and binds `updateStats` to a string: the toast
reads `Found 10 devices (2 rogues)`, the refresh is started, and only
`loadRogueDevices` is called. -/
theorem scan_complete_handler_witness :
    (initializeSocket
      { page0 with loadRogueDevices := some (.function (utf16 "loadRogueDevices")),
                   updateStats := some (.str (utf16 "off")) }
      (utf16 "scan_complete")
      (.obj [(utf16 "total_devices", .num ⟨10, by decide⟩),
             (utf16 "rogues", .num ⟨2, by decide⟩)])).1.trace
      = [.log (utf16 "Scan completed:"),
         .toast (utf16 "Scan Complete") (utf16 "Found 10 devices (2 rogues)") (utf16 "info"),
         statusRequest, .call (utf16 "loadRogueDevices")] :=
  (scan_complete_handler
    { page0 with loadRogueDevices := some (.function (utf16 "loadRogueDevices")),
                 updateStats := some (.str (utf16 "off")) }
    (.obj [(utf16 "total_devices", .num ⟨10, by decide⟩),
           (utf16 "rogues", .num ⟨2, by decide⟩)])
    (.num ⟨10, by decide⟩) (.num ⟨2, by decide⟩) (utf16 "10") (utf16 "2")
    rfl (by decide) rfl (by decide) rfl rfl).1.trans (by decide)

/-- When `loadRogueDevices` is a function that throws, the handler of
`scan_complete` ends there: the error escapes and `updateStats` is not
called. -/
theorem scan_complete_handler_hook_throws :
    (initializeSocket
      { page0 with loadRogueDevices := some (.function (utf16 "loadRogueDevices")),
                   updateStats := some (.function (utf16 "updateStats")),
                   loadRogueDevicesFails := some .pageError }
      (utf16 "scan_complete")
      (.obj [(utf16 "total_devices", .num ⟨10, by decide⟩),
             (utf16 "rogues", .num ⟨2, by decide⟩)])).1.trace
      = [.log (utf16 "Scan completed:"),
         .toast (utf16 "Scan Complete") (utf16 "Found 10 devices (2 rogues)") (utf16 "info"),
         statusRequest, .call (utf16 "loadRogueDevices")] ∧
    (initializeSocket
      { page0 with loadRogueDevices := some (.function (utf16 "loadRogueDevices")),
                   updateStats := some (.function (utf16 "updateStats")),
                   loadRogueDevicesFails := some .pageError }
      (utf16 "scan_complete")
      (.obj [(utf16 "total_devices", .num ⟨10, by decide⟩),
             (utf16 "rogues", .num ⟨2, by decide⟩)])).2 = some .pageError := by
  decide

/-- A `total_devices` that ToString cannot convert, an object with an own
`toString` property, makes the handler of `scan_complete` throw after its
console line: no toast is shown and no refresh is started. -/
theorem scan_complete_handler_unconvertible :
    (initializeSocket page0 (utf16 "scan_complete")
      (.obj [(utf16 "total_devices", .obj [(utf16 "toString", .num ⟨1, by decide⟩)]),
             (utf16 "rogues", .num ⟨2, by decide⟩)])).1.trace
      = [.log (utf16 "Scan completed:")] ∧
    (initializeSocket page0 (utf16 "scan_complete")
      (.obj [(utf16 "total_devices", .obj [(utf16 "toString", .num ⟨1, by decide⟩)]),
             (utf16 "rogues", .num ⟨2, by decide⟩)])).2 = some .typeError := by
  decide

/-- A payload other than `null` and `undefined` has every property readable. -/
theorem getProp_of_not_nullish (data : JSValue) (hu : data ≠ .undefined) (hn : data ≠ .null)
    (k : JSString) : ∃ v, getProp data k = .ok v := by
  cases data <;> simp [getProp] at hu hn ⊢

/-- ToString converts every string, number, boolean, `null` and `undefined`, and
every object without an own `toString` property. -/
theorem toStr_converts :
    (∀ s, toStr (.str s) = .ok s) ∧
    (∀ n, toStr (.num n) = .ok (numberToString n)) ∧
    (∀ b, ∃ s, toStr (.bool b) = .ok s) ∧
    toStr .null = .ok (utf16 "null") ∧
    toStr .undefined = .ok (utf16 "undefined") ∧
    (∀ props, lookupOwn props (utf16 "toString") = none →
      toStr (.obj props) = .ok (utf16 "[object Object]")) := by
  refine ⟨fun _ => rfl, fun _ => rfl, ?_, rfl, rfl, ?_⟩
  · intro b
    cases b
    · exact ⟨_, rfl⟩
    · exact ⟨_, rfl⟩
  · intro props hp
    simp [toStr, objectToString, hp]

theorem device_event_run (p : Page) (text title message type : JSString) :
    (showNotification (emit p (.log text)) (.str title) (.str message) (.str type)).1.trace
      = p.trace ++ [.log text, .toast title message type] ∧
    (showNotification (emit p (.log text)) (.str title) (.str message) (.str type)).1.lastScanTime
      = p.lastScanTime ∧
    (showNotification (emit p (.log text)) (.str title) (.str message) (.str type)).2 = none := by
  rw [showNotification_of_ok _ _ _ _ _ _ _ (toStr_str _) (toStr_str _) (toStr_str _)]
  simp [(emit_fields _ _).1, (emit_fields _ _).2.1, (getToastContainer_fields _).1,
    (getToastContainer_fields _).2.1]

/-- C9 as stated fails on the payload `null`: the handler of `device_authorized`
logs the event and then throws on reading `mac_address`, so no toast is shown
and the error escapes the handler; the other two handlers throw alike on
reading `port`. -/
theorem device_handlers_null_payload :
    toasts (initializeSocket page0 (utf16 "device_authorized") .null).1.trace = [] ∧
    (initializeSocket page0 (utf16 "device_authorized") .null).2 = some .typeError ∧
    toasts (initializeSocket page0 (utf16 "device_isolated") .null).1.trace = [] ∧
    (initializeSocket page0 (utf16 "device_isolated") .null).2 = some .typeError ∧
    toasts (initializeSocket page0 (utf16 "device_restored") .null).1.trace = [] ∧
    (initializeSocket page0 (utf16 "device_restored") .null).2 = some .typeError := by
  decide

/-- A `mac_address` that ToString cannot convert, an object with an own
`toString` property, makes the handler of `device_authorized` throw after its
console line: no toast is shown. -/
theorem device_authorized_unconvertible :
    (initializeSocket page0 (utf16 "device_authorized")
      (.obj [(utf16 "mac_address", .obj [(utf16 "toString", .str (utf16 "x"))])])).1.trace
      = [.log (utf16 "Device authorized:")] ∧
    (initializeSocket page0 (utf16 "device_authorized")
      (.obj [(utf16 "mac_address", .obj [(utf16 "toString", .str (utf16 "x"))])])).2
      = some .typeError := by
  decide

/-- C9, amended: for every payload from which the field can be read (every
payload other than `null` and `undefined`) and whose field ToString converts
(every string, number, boolean, `null` or absent field; not an object with an
own `toString` property), each device event handler logs the event, shows
exactly one toast and has no other effect (no request, no change of the
`lastScanTime` element, no uncaught error): `device_authorized` with
`mac_address` `m` shows a `success` toast with the message
`Device m has been authorized`; `device_isolated` with `port` `q` shows a
`warning` toast with the message `Device on port q has been isolated`;
`device_restored` with `port` `q` shows an `info` toast with the message
`Device on port q has been restored`. -/
theorem device_handlers (p : Page) (data : JSValue) :
    (data ≠ .undefined → data ≠ .null → ∀ k, ∃ v, getProp data k = .ok v) ∧
    (∀ m sm, getProp data (utf16 "mac_address") = .ok m → toStr m = .ok sm →
      (initializeSocket p (utf16 "device_authorized") data).1.trace
        = p.trace ++ [.log (utf16 "Device authorized:"),
            .toast (utf16 "Device Authorized")
              (utf16 "Device " ++ sm ++ utf16 " has been authorized") (utf16 "success")] ∧
      (initializeSocket p (utf16 "device_authorized") data).1.lastScanTime = p.lastScanTime ∧
      (initializeSocket p (utf16 "device_authorized") data).2 = none) ∧
    (∀ q sq, getProp data (utf16 "port") = .ok q → toStr q = .ok sq →
      (initializeSocket p (utf16 "device_isolated") data).1.trace
        = p.trace ++ [.log (utf16 "Device isolated:"),
            .toast (utf16 "Device Isolated")
              (utf16 "Device on port " ++ sq ++ utf16 " has been isolated")
              (utf16 "warning")] ∧
      (initializeSocket p (utf16 "device_isolated") data).1.lastScanTime = p.lastScanTime ∧
      (initializeSocket p (utf16 "device_isolated") data).2 = none) ∧
    (∀ q sq, getProp data (utf16 "port") = .ok q → toStr q = .ok sq →
      (initializeSocket p (utf16 "device_restored") data).1.trace
        = p.trace ++ [.log (utf16 "Device restored:"),
            .toast (utf16 "Device Restored")
              (utf16 "Device on port " ++ sq ++ utf16 " has been restored")
              (utf16 "info")] ∧
      (initializeSocket p (utf16 "device_restored") data).1.lastScanTime = p.lastScanTime ∧
      (initializeSocket p (utf16 "device_restored") data).2 = none) := by
  have h1 : initializeSocket p (utf16 "device_authorized") data = onDeviceAuthorized p data := by
    unfold initializeSocket
    rw [if_neg (by decide), if_neg (by decide), if_pos rfl]
  have h2 : initializeSocket p (utf16 "device_isolated") data = onDeviceIsolated p data := by
    unfold initializeSocket
    rw [if_neg (by decide), if_neg (by decide), if_neg (by decide), if_pos rfl]
  have h3 : initializeSocket p (utf16 "device_restored") data = onDeviceRestored p data := by
    unfold initializeSocket
    rw [if_neg (by decide), if_neg (by decide), if_neg (by decide), if_neg (by decide),
      if_pos rfl]
  refine ⟨fun hu hn k => getProp_of_not_nullish data hu hn k, ?_, ?_, ?_⟩
  · intro m sm hm hsm
    rw [h1]
    simp only [onDeviceAuthorized, hm, hsm]
    exact device_event_run p _ _ _ _
  · intro q sq hq hsq
    rw [h2]
    simp only [onDeviceIsolated, hq, hsq]
    exact device_event_run p _ _ _ _
  · intro q sq hq hsq
    rw [h3]
    simp only [onDeviceRestored, hq, hsq]
    exact device_event_run p _ _ _ _

/-- The amended C9 at the payloads `{mac_address: "AA:BB:CC:DD:EE:FF"}` and
`{port: 7}`. -/
theorem device_handlers_witness :
    (initializeSocket page0 (utf16 "device_authorized")
      (.obj [(utf16 "mac_address", .str (utf16 "AA:BB:CC:DD:EE:FF"))])).1.trace
      = [.log (utf16 "Device authorized:"),
         .toast (utf16 "Device Authorized")
           (utf16 "Device AA:BB:CC:DD:EE:FF has been authorized") (utf16 "success")] ∧
    (initializeSocket page0 (utf16 "device_isolated")
      (.obj [(utf16 "port", .num ⟨7, by decide⟩)])).1.trace
      = [.log (utf16 "Device isolated:"),
         .toast (utf16 "Device Isolated")
           (utf16 "Device on port 7 has been isolated") (utf16 "warning")] :=
  ⟨((device_handlers page0 (.obj [(utf16 "mac_address", .str (utf16 "AA:BB:CC:DD:EE:FF"))])).2.1
      (.str (utf16 "AA:BB:CC:DD:EE:FF")) (utf16 "AA:BB:CC:DD:EE:FF") rfl rfl).1.trans
      (by decide),
   ((device_handlers page0 (.obj [(utf16 "port", .num ⟨7, by decide⟩)])).2.2.1
      (.num ⟨7, by decide⟩) (utf16 "7") rfl (by decide)).1.trans (by decide)⟩

end RogueUI
